import Mathlib

/- Verification of the CertiMint scoring and decision pipeline.

The Python sources of the repository are shallowly embedded below.
Machine floats are modelled as exact rationals (and as real numbers in
the modules that call math.sqrt); Python round(x, n) is modelled exactly
as round-half-even on rationals.  Ambient state that the source reads
from disk (data/info.json) and the wall clock are passed as explicit
inputs to the embedded functions.  All embedded texts, patterns and
keywords are ASCII, so Python str.lower and the \w and \s character
classes are modelled on their ASCII fragments. -/


namespace Py

/-- Python whitespace (str.strip default / the regex class \s, ASCII fragment). -/
def isWs (c : Char) : Bool :=
  c == ' ' || c == '\t' || c == '\n' || c == '\x0d' || c == '\x0b' || c == '\x0c'

/-- ASCII fragment of the regex class \w (letters, digits, underscore). -/
def isWordChar (c : Char) : Bool :=
  c.isAlpha || c.isDigit || c == '_'

/-- ASCII lowering, the fragment of Python str.lower exercised by the pipeline. -/
def lowerChar (c : Char) : Char :=
  if 'A' ≤ c ∧ c ≤ 'Z' then Char.ofNat (c.toNat + 32) else c

/-- Lower a character list (Python str.lower on ASCII text). -/
def lower (t : List Char) : List Char := t.map lowerChar

/-- Python substring containment: p in t. -/
def containsSub (p : List Char) : List Char → Bool
  | [] => p.isPrefixOf []
  | c :: rest => p.isPrefixOf (c :: rest) || containsSub p rest

/-- Scanner for countOccur: positions covered by an earlier match are skipped
through the skip counter, giving the non-overlapping left-to-right semantics
of Python str.count / re.findall on a literal pattern. -/
def countOccurGo (p : List Char) (skip : ℕ) : List Char → ℕ
  | [] => 0
  | c :: rest =>
    if 0 < skip then countOccurGo p (skip - 1) rest
    else if p.isPrefixOf (c :: rest) then 1 + countOccurGo p (p.length - 1) rest
    else countOccurGo p 0 rest

/-- Count of non-overlapping occurrences of a literal pattern, scanning left to
right (Python str.count, and len of re.findall for a literal pattern). -/
def countOccur (p : List Char) (t : List Char) : ℕ :=
  if p = [] then t.length + 1 else countOccurGo p 0 t

/-- Scanner for findMatchesCI (same skip-counter scheme as countOccurGo). -/
def findMatchesCIGo (p : List Char) (skip : ℕ) : List Char → List (List Char)
  | [] => []
  | c :: rest =>
    if 0 < skip then findMatchesCIGo p (skip - 1) rest
    else if (lower p).isPrefixOf (lower (c :: rest)) then
      (c :: rest).take p.length :: findMatchesCIGo p (p.length - 1) rest
    else findMatchesCIGo p 0 rest

/-- Matched slices of re.findall with IGNORECASE for a literal pattern: the
pattern is compared after lowering, the returned slices keep the original
case.  The pipeline never applies findall to an empty literal. -/
def findMatchesCI (p : List Char) (t : List Char) : List (List Char) :=
  if p = [] then [] else findMatchesCIGo p 0 t

/-- Scanner for findAltCI. -/
def findAltCIGo (alts : List (List Char)) (skip : ℕ) : List Char → List (List Char)
  | [] => []
  | c :: rest =>
    if 0 < skip then findAltCIGo alts (skip - 1) rest
    else
      match alts.find? (fun a => (lower a).isPrefixOf (lower (c :: rest))) with
      | some a => (c :: rest).take a.length :: findAltCIGo alts (a.length - 1) rest
      | none => findAltCIGo alts 0 rest

/-- Matched slices of re.findall with IGNORECASE for an ordered list of literal
alternatives (used for the one pattern with a [- ]? option); at every position
the first alternative that matches is taken, and scanning resumes after it. -/
def findAltCI (alts : List (List Char)) (t : List Char) : List (List Char) :=
  findAltCIGo alts 0 t

/-- Python str.strip() with no argument: remove leading and trailing whitespace. -/
def stripWs (t : List Char) : List Char :=
  ((t.dropWhile isWs).reverse.dropWhile isWs).reverse

/-- Maximal runs of characters of a class (the matches of re.findall for a
class-plus pattern such as \w+ ), by grouping adjacent class characters. -/
def runsOf (cls : Char → Bool) : List Char → List (List Char)
  | [] => []
  | c :: rest =>
    if cls c then
      match rest with
      | [] => [[c]]
      | d :: _ =>
        if cls d then
          match runsOf cls rest with
          | r :: rs => (c :: r) :: rs
          | [] => [[c]]
        else [c] :: runsOf cls rest
    else runsOf cls rest

/-- Python str.split() with no argument: maximal non-whitespace runs. -/
def splitWs (t : List Char) : List (List Char) :=
  runsOf (fun c => ! isWs c) t

/-- re.findall(r'\b\w+\b', t): every maximal word-character run. -/
def wordTokens (t : List Char) : List (List Char) :=
  runsOf isWordChar t

/-- re.findall(r'\b[a-zA-Z]+\b', t): maximal word-character runs that are
purely alphabetic (a run containing a digit or underscore has no inner word
boundary, so it yields no match). -/
def alphaTokens (t : List Char) : List (List Char) :=
  (runsOf isWordChar t).filter (fun w => w.all Char.isAlpha)

/-- re.findall(r'\b[a-zA-Z0-9]+\b', t): maximal word-character runs that are
purely alphanumeric. -/
def alnumTokens (t : List Char) : List (List Char) :=
  (runsOf isWordChar t).filter (fun w => w.all (fun c => c.isAlpha || c.isDigit))

/-- Scanner for splitLit: acc is the current piece (reversed), skip covers the
characters of an already-recognised separator. -/
def splitLitGo (sep : List Char) (acc : List Char) (skip : ℕ) :
    List Char → List (List Char)
  | [] => [acc.reverse]
  | c :: rest =>
    if 0 < skip then splitLitGo sep acc (skip - 1) rest
    else if sep.isPrefixOf (c :: rest) then
      acc.reverse :: splitLitGo sep [] (sep.length - 1) rest
    else splitLitGo sep (c :: acc) 0 rest

/-- Python str.split(sep) for a non-empty literal separator: non-overlapping
left-to-right splitting, keeping empty pieces. -/
def splitLit (sep : List Char) (t : List Char) : List (List Char) :=
  if sep = [] then [t] else splitLitGo sep [] 0 t

/-- Scanner for splitRuns: inRun is true while inside a separator run (the
piece boundary was already emitted at the start of the run). -/
def splitRunsGo (cls : Char → Bool) (acc : List Char) (inRun : Bool) :
    List Char → List (List Char)
  | [] => [acc.reverse]
  | c :: rest =>
    if cls c then
      if inRun then splitRunsGo cls acc true rest
      else acc.reverse :: splitRunsGo cls [] true rest
    else splitRunsGo cls (c :: acc) false rest

/-- re.split on a character-class-plus pattern such as [.!?]+ : split at every
maximal run of class characters, keeping empty pieces at the boundaries. -/
def splitRuns (cls : Char → Bool) (t : List Char) : List (List Char) :=
  splitRunsGo cls [] false t

/-- Length of the separator matched by the regex \n\s*\n at the start of t
(none when the pattern does not match there): the greedy match runs from the
leading newline to the last newline of the maximal whitespace run behind it. -/
def blankSepLen (t : List Char) : Option ℕ :=
  match t with
  | c :: rest =>
    if c = '\n' then
      if (rest.takeWhile isWs).contains '\n' then
        some (1 + ((rest.takeWhile isWs).length - 1 -
          (rest.takeWhile isWs).reverse.findIdx (fun x => x == '\n')) + 1)
      else none
    else none
  | [] => none

/-- Scanner for reSplitBlank (same skip-counter scheme as splitLitGo). -/
def reSplitBlankGo (acc : List Char) (skip : ℕ) : List Char → List (List Char)
  | [] => [acc.reverse]
  | c :: rest =>
    if 0 < skip then reSplitBlankGo acc (skip - 1) rest
    else
      match blankSepLen (c :: rest) with
      | some k => acc.reverse :: reSplitBlankGo [] (k - 1) rest
      | none => reSplitBlankGo (c :: acc) 0 rest

/-- re.split(r'\n\s*\n', text): split at every (greedy, leftmost) match of a
newline, optional whitespace, newline. -/
def reSplitBlank (t : List Char) : List (List Char) :=
  reSplitBlankGo [] 0 t

/-- Is there a regex word boundary (\b) between two adjacent positions?  none
stands for the edge of the text. -/
def isBoundaryPair (a b : Option Char) : Bool :=
  (a.elim false isWordChar) != (b.elim false isWordChar)

/-- Scanner for countWordBounded: prev is the character before the current
position (none at the start of the text), skip covers characters of an
already-recognised match. -/
def countWordBoundedGo (p : List Char) (prev : Option Char) (skip : ℕ) :
    List Char → ℕ
  | [] => 0
  | c :: rest =>
    if 0 < skip then countWordBoundedGo p (some c) (skip - 1) rest
    else if p.isPrefixOf (c :: rest) && isBoundaryPair prev (some c) &&
        isBoundaryPair p.getLast? (((c :: rest).drop p.length).head?) then
      1 + countWordBoundedGo p (some c) (p.length - 1) rest
    else countWordBoundedGo p (some c) 0 rest

/-- len(re.findall(r'\b<literal>\b', text)): non-overlapping occurrences of a
literal pattern with word boundaries on both sides. -/
def countWordBounded (p t : List Char) : ℕ :=
  if p = [] then 0 else countWordBoundedGo p none 0 t

/-- Round-half-even to an integer (Python round(x) on an exact value). -/
def rhe (x : ℚ) : ℤ :=
  if x - ⌊x⌋ < 1/2 then ⌊x⌋
  else if 1/2 < x - ⌊x⌋ then ⌊x⌋ + 1
  else if Even ⌊x⌋ then ⌊x⌋ else ⌊x⌋ + 1

/-- Python round(x, d) on an exact value: round-half-even at d decimal places. -/
def pyRound (d : ℕ) (x : ℚ) : ℚ :=
  (rhe (x * 10 ^ d) : ℚ) / 10 ^ d

theorem rhe_intCast (n : ℤ) : rhe (n : ℚ) = n := by
  unfold rhe
  have h : ⌊(n : ℚ)⌋ = n := Int.floor_intCast n
  simp [h]

theorem le_rhe (x : ℚ) : ⌊x⌋ ≤ rhe x := by
  unfold rhe
  split_ifs <;> omega

theorem rhe_le (x : ℚ) : rhe x ≤ ⌊x⌋ + 1 := by
  unfold rhe
  split_ifs <;> omega

theorem rhe_mono {x y : ℚ} (h : x ≤ y) : rhe x ≤ rhe y := by
  have hf : ⌊x⌋ ≤ ⌊y⌋ := Int.floor_le_floor h
  rcases lt_or_eq_of_le hf with hlt | heq
  · calc rhe x ≤ ⌊x⌋ + 1 := rhe_le x
    _ ≤ ⌊y⌋ := by omega
    _ ≤ rhe y := le_rhe y
  · unfold rhe
    rw [← heq]
    have hxy : x - ⌊x⌋ ≤ y - ⌊x⌋ := by linarith
    split_ifs <;> first | omega | linarith

theorem pyRound_mono (d : ℕ) {x y : ℚ} (h : x ≤ y) : pyRound d x ≤ pyRound d y := by
  unfold pyRound
  have hp : (0:ℚ) < 10 ^ d := by positivity
  have : rhe (x * 10 ^ d) ≤ rhe (y * 10 ^ d) :=
    rhe_mono (by nlinarith)
  exact (div_le_div_right hp).mpr (by exact_mod_cast this)

theorem pyRound_intCast (d : ℕ) (n : ℤ) : pyRound d (n : ℚ) = n := by
  unfold pyRound
  have h1 : ((n : ℚ) * 10 ^ d) = ((n * 10 ^ d : ℤ) : ℚ) := by push_cast; ring
  rw [h1, rhe_intCast]
  have hp : (10:ℚ) ^ d ≠ 0 := by positivity
  push_cast
  field_simp

theorem pyRound_le_of_le (d : ℕ) {x : ℚ} {b : ℤ} (h : x ≤ b) : pyRound d x ≤ b := by
  have := pyRound_mono d h
  rwa [pyRound_intCast] at this

theorem le_pyRound_of_le (d : ℕ) {x : ℚ} {a : ℤ} (h : (a:ℚ) ≤ x) : (a:ℚ) ≤ pyRound d x := by
  have := pyRound_mono d h
  rwa [pyRound_intCast] at this

theorem isPrefixOf_exists (p t : List Char) :
    p.isPrefixOf t = true ↔ ∃ v, t = p ++ v := by
  induction p generalizing t with
  | nil => simp [List.isPrefixOf]
  | cons a q ih =>
    cases t with
    | nil => simp [List.isPrefixOf]
    | cons b r =>
      simp only [List.isPrefixOf, Bool.and_eq_true, beq_iff_eq, List.cons_append,
        List.cons.injEq, ih]
      constructor
      · rintro ⟨hab, v, hv⟩
        exact ⟨v, hab.symm, hv⟩
      · rintro ⟨v, hab, hv⟩
        exact ⟨hab.symm, v, hv⟩

theorem containsSub_exists (p t : List Char) :
    containsSub p t = true ↔ ∃ u v, t = u ++ p ++ v := by
  induction t with
  | nil =>
    simp only [containsSub, isPrefixOf_exists]
    constructor
    · rintro ⟨v, hv⟩
      exact ⟨[], v, by simpa using hv⟩
    · rintro ⟨u, v, huv⟩
      have hu : u = [] := by
        cases u with
        | nil => rfl
        | cons x xs => simp at huv
      subst hu
      exact ⟨v, by simpa using huv⟩
  | cons c r ih =>
    simp only [containsSub, Bool.or_eq_true, isPrefixOf_exists, ih]
    constructor
    · rintro (⟨v, hv⟩ | ⟨u, v, huv⟩)
      · exact ⟨[], v, by simpa using hv⟩
      · exact ⟨c :: u, v, by simp [huv]⟩
    · rintro ⟨u, v, huv⟩
      cases u with
      | nil =>
        exact Or.inl ⟨v, by simpa using huv⟩
      | cons x xs =>
        simp only [List.cons_append, List.cons.injEq] at huv
        exact Or.inr ⟨xs, v, huv.2⟩

theorem containsSub_self (p : List Char) : containsSub p p = true :=
  (containsSub_exists p p).mpr ⟨[], [], by simp⟩

theorem isPrefixOf_eq_true_iff (p t : List Char) :
    p.isPrefixOf t = true ↔ p <+: t := by
  rw [isPrefixOf_exists]
  constructor
  · rintro ⟨v, hv⟩
    exact ⟨v, hv.symm⟩
  · rintro ⟨v, hv⟩
    exact ⟨v, hv.symm⟩

theorem lower_append (u v : List Char) : lower (u ++ v) = lower u ++ lower v :=
  List.map_append lowerChar u v

theorem findMatchesCIGo_ne_nil {p : List Char} (t : List Char) (hp : p ≠ [])
    (h : containsSub (lower p) (lower t) = true) : findMatchesCIGo p 0 t ≠ [] := by
  induction t with
  | nil =>
    rw [show lower [] = [] from rfl] at h
    simp only [containsSub, isPrefixOf_exists] at h
    obtain ⟨v, hv⟩ := h
    have hlp : lower p = [] := by
      cases hl : lower p with
      | nil => rfl
      | cons x xs => rw [hl] at hv; simp at hv
    have hpl : p = [] := by
      have := congrArg List.length hlp
      simpa [lower] using List.length_eq_zero.mp (by simpa [lower] using this)
    exact absurd hpl hp
  | cons c r ih =>
    simp only [findMatchesCIGo, Nat.lt_irrefl 0, if_false]
    by_cases hpre : (lower p).isPrefixOf (lower (c :: r)) = true
    · simp [hpre]
    · have h2 : containsSub (lower p) (lower r) = true := by
        have hcr : lower (c :: r) = lowerChar c :: lower r := rfl
        rw [hcr] at h
        simp only [containsSub, Bool.or_eq_true] at h
        rcases h with h | h
        · rw [hcr] at hpre
          exact absurd h hpre
        · exact h
      have := ih h2
      simpa [hpre] using this

theorem findMatchesCI_ne_nil {p : List Char} (t : List Char) (hp : p ≠ [])
    (h : containsSub (lower p) (lower t) = true) : findMatchesCI p t ≠ [] := by
  unfold findMatchesCI
  rw [if_neg hp]
  exact findMatchesCIGo_ne_nil t hp h

theorem pyRound_eq_of_lt_half (d : ℕ) (x : ℚ) (n : ℤ) (hfl : ⌊x * 10 ^ d⌋ = n)
    (h : x * 10 ^ d - n < 1/2) : pyRound d x = (n : ℚ) / 10 ^ d := by
  unfold pyRound rhe
  rw [hfl, if_pos h]

theorem pyRound_eq_of_half_lt (d : ℕ) (x : ℚ) (n : ℤ) (hfl : ⌊x * 10 ^ d⌋ = n)
    (h : 1/2 < x * 10 ^ d - n) : pyRound d x = ((n + 1 : ℤ) : ℚ) / 10 ^ d := by
  unfold pyRound rhe
  rw [hfl, if_neg (by linarith), if_pos h]

end Py

/- ===== src/AI _analysis/subject_validation.py =====
Direct keyword-based subject validation backed by the fixed table of
essential and disqualifying keyword sets per subject. -/

namespace SV

/-- One entry of the SUBJECT_KEYWORDS table. -/
structure SubjectRules where
  name : String
  essential : List String
  disqualifying : List String

/-- The SUBJECT_KEYWORDS table of subject_validation.py. -/
def SUBJECT_KEYWORDS : List SubjectRules := [
  { name := "history",
    essential := ["history", "historical", "ancient", "medieval", "century",
      "civilization", "empire", "dynasty", "war", "revolution", "period", "era"],
    disqualifying := ["quantum", "mechanics", "physics", "artificial intelligence",
      "neural network", "machine learning", "algorithm", "programming", "code",
      "software", "computer science"] },
  { name := "physics",
    essential := ["physics", "mechanics", "energy", "force", "motion", "quantum",
      "relativity", "particle", "wave", "theory", "thermodynamics", "electromagnetic"],
    disqualifying := ["literature", "novel", "poem", "fiction", "author", "character",
      "political science", "government", "democracy", "economy"] },
  { name := "quantum mechanics",
    essential := ["quantum", "mechanics", "wave function", "particle", "uncertainty",
      "superposition", "physics", "entanglement", "energy levels", "schrodinger",
      "heisenberg", "atomic", "subatomic", "quantum state", "probability"],
    disqualifying := ["history", "literature", "ancient", "medieval", "dynasty",
      "economy", "government", "politics", "linguistics", "grammar"] },
  { name := "computer science",
    essential := ["algorithm", "programming", "software", "hardware", "data",
      "network", "computer", "code", "system", "application", "development", "database"],
    disqualifying := ["medieval", "ancient history", "literature", "poem", "novel",
      "biology", "chemistry"] },
  { name := "artificial intelligence",
    essential := ["ai", "artificial intelligence", "machine learning", "neural",
      "algorithm", "deep learning", "model", "training", "prediction", "classification"],
    disqualifying := ["ancient history", "medieval history", "chemistry",
      "organic chemistry"] },
  { name := "literature",
    essential := ["literature", "novel", "fiction", "character", "narrative", "plot",
      "author", "book", "poem", "poetry", "story", "writing"],
    disqualifying := ["quantum", "physics", "algorithm", "programming", "code",
      "software"] }]

/-- validate_subject_keywords(text, subject): returns (is_valid, confidence,
reason).  The loop matching the declared subject against the table keys by
mutual substring containment is the source's for/break loop; an unmatched
subject keeps subject_lower, which is then absent from the table. -/
def validateSubjectKeywords (text subject : String) : Bool × ℕ × String :=
  let textL := Py.lower text.data
  let subjL := Py.lower subject.data
  let matchedSubject : List Char :=
    match SUBJECT_KEYWORDS.find? (fun r =>
        Py.containsSub r.name.data subjL || Py.containsSub subjL r.name.data) with
    | some r => r.name.data
    | none => subjL
  match SUBJECT_KEYWORDS.find? (fun r => r.name.data == matchedSubject) with
  | none => (true, 50, "No defined keyword rules for subject: " ++ subject)
  | some rules =>
    match rules.disqualifying.find? (fun kw =>
        Py.containsSub kw.data textL && (Py.countWordBounded kw.data textL != 0)) with
    | some kw =>
      (false, 10, "Document contains \x27" ++ kw ++ "\x27 which is unrelated to " ++ subject)
    | none =>
      let essentialCount := (rules.essential.map (fun kw =>
        if Py.containsSub kw.data textL then Py.countWordBounded kw.data textL else 0)).sum
      if 5 < essentialCount then
        (true, 90, "Document contains multiple keywords related to " ++ subject)
      else if 2 < essentialCount then
        (true, 70, "Document contains some keywords related to " ++ subject)
      else if 0 < essentialCount then
        (true, 40, "Document contains few keywords related to " ++ subject)
      else
        (false, 20, "Document contains no essential keywords related to " ++ subject)

end SV

/-- Claim C8: a declared subject with no entry in the fixed subject-keyword
table (no table key is a substring of the lowered subject nor vice versa)
makes the subject validator return the neutral result (valid, confidence 50)
for every input text; the embedded function is total, so no exception is
possible. -/
theorem C8_unknown_subject_is_neutral (text subject : String)
    (h : ∀ r ∈ SV.SUBJECT_KEYWORDS,
      Py.containsSub r.name.data (Py.lower subject.data) = false ∧
      Py.containsSub (Py.lower subject.data) r.name.data = false) :
    SV.validateSubjectKeywords text subject =
      (true, 50, "No defined keyword rules for subject: " ++ subject) := by
  unfold SV.validateSubjectKeywords
  have h1 : SV.SUBJECT_KEYWORDS.find? (fun r =>
      Py.containsSub r.name.data (Py.lower subject.data) ||
      Py.containsSub (Py.lower subject.data) r.name.data) = none := by
    rw [List.find?_eq_none]
    intro r hr
    simp [(h r hr).1, (h r hr).2]
  have h2 : SV.SUBJECT_KEYWORDS.find? (fun r =>
      r.name.data == Py.lower subject.data) = none := by
    rw [List.find?_eq_none]
    intro r hr hbeq
    have heq : r.name.data = Py.lower subject.data := by simpa using hbeq
    have := (h r hr).1
    rw [heq] at this
    rw [Py.containsSub_self] at this
    exact absurd this (by simp)
  simp only [h1, h2]

/-- Witness for C8 at the concrete unknown subject "astronomy". -/
theorem C8_witness :
    SV.validateSubjectKeywords "stars" "astronomy" =
      (true, 50, "No defined keyword rules for subject: " ++ "astronomy") :=
  C8_unknown_subject_is_neutral "stars" "astronomy" (by decide)

/- ===== src/AI_analysis_engine/content_relevance.py =====
Keyword-based relevance scoring and the final keyword/LLM blend.  The Phi
model call itself is an external collaborator; only the pure scoring
functions are embedded. -/

namespace CR

/-- The subject_expansions table of check_broader_relevance. -/
def subjectExpansions : List (String × List String) := [
  ("artificial", ["ai", "machine", "learning", "intelligence", "algorithm", "model", "data", "computer"]),
  ("intelligence", ["ai", "artificial", "smart", "learning", "cognitive", "neural", "algorithm"]),
  ("machine", ["learning", "ai", "artificial", "algorithm", "model", "data", "training"]),
  ("learning", ["machine", "ai", "artificial", "algorithm", "model", "training", "neural"]),
  ("computer", ["science", "programming", "algorithm", "software", "technology", "coding"]),
  ("mathematics", ["math", "equation", "formula", "calculation", "number", "statistics"]),
  ("biology", ["life", "organism", "cell", "genetic", "evolution", "species", "living"]),
  ("physics", ["force", "energy", "matter", "quantum", "particle", "wave", "motion"]),
  ("chemistry", ["chemical", "reaction", "molecule", "compound", "element", "bond"])]

/-- The academic_terms list of check_broader_relevance. -/
def academicTerms : List String :=
  ["field", "domain", "study", "learn", "knowledge", "research", "theory", "concept"]

/-- check_broader_relevance(text_lower, keywords). -/
def checkBroaderRelevance (textL : List Char) (keywords : List String) : ℚ :=
  let expansionBonus : ℕ := (keywords.map (fun kw =>
    match subjectExpansions.find? (fun e => e.1.data == Py.lower kw.data) with
    | some e => ((e.2.filter (fun term => Py.containsSub term.data textL)).length) * 5
    | none => 0)).sum
  let academicMatches : ℕ :=
    (academicTerms.filter (fun term => Py.containsSub term.data textL)).length
  min ((expansionBonus : ℚ) + academicMatches * 2) 40

/-- check_groq_word_relevance(ocr_text, keywords): keyword-density relevance.
The division by len(keywords) raises ZeroDivisionError in Python for an empty
keyword list; theorems about this function assume keywords is non-empty. -/
def checkGroqWordRelevance (ocrText : String) (keywords : List String) : ℚ :=
  let textL := Py.lower ocrText.data
  let totalWords := (Py.wordTokens textL).length
  if totalWords = 0 then 0
  else
    let wordMatches : ℕ := (keywords.map (fun w => Py.countOccur (Py.lower w.data) textL)).sum
    let subjectRelevance := checkBroaderRelevance textL keywords
    let baseRelevance := min ((wordMatches : ℚ) / keywords.length * 40) 100
    Py.pyRound 2 (min (baseRelevance + subjectRelevance) 100)

/-- The subject_keywords table of calculate_enhanced_fallback_relevance. -/
def fallbackSubjectKeywords : List (String × List String) := [
  ("artificial intelligence", ["ai", "artificial", "intelligence", "machine", "learning", "algorithm", "model", "data", "neural", "deep", "computer", "technology", "automation"]),
  ("computer science", ["computer", "programming", "algorithm", "software", "code", "technology", "data", "system", "digital", "coding", "development"]),
  ("physics", ["quantum", "mechanics", "particle", "wave", "energy", "force", "matter", "motion", "physics", "scientific"]),
  ("chemistry", ["molecule", "atom", "reaction", "compound", "element", "chemical", "bond", "chemistry", "substance"]),
  ("biology", ["cell", "organism", "evolution", "gene", "dna", "life", "living", "species", "biological", "nature"]),
  ("mathematics", ["equation", "function", "theorem", "algebra", "geometry", "calculus", "math", "mathematical", "number", "formula", "statistics", "probability"]),
  ("machine learning", ["machine", "learning", "ai", "artificial", "algorithm", "model", "data", "training", "neural", "deep"]),
  ("data science", ["data", "analysis", "statistics", "machine", "learning", "algorithm", "model", "analytics", "science"])]

/-- The academic_terms list of calculate_enhanced_fallback_relevance. -/
def fallbackAcademicTerms : List String :=
  ["field", "domain", "opportunities", "learn", "study", "knowledge", "theory",
   "concept", "research", "development", "progress", "models", "powerful", "used",
   "applications"]

/-- calculate_enhanced_fallback_relevance(text, subject). -/
def calculateEnhancedFallbackRelevance (text subject : String) : ℚ :=
  let textL := Py.lower text.data
  let subjL := Py.lower subject.data
  let baseScore : ℚ := if Py.containsSub subjL textL then 30 + 30 else 30
  let bestMatchScore : ℚ := (fallbackSubjectKeywords.map (fun e =>
    if (Py.splitWs e.1.data).any (fun term => Py.containsSub term subjL) then
      min (((e.2.filter (fun kw => Py.containsSub kw.data textL)).length : ℚ) * 8) 50
    else 0)).foldl max 0
  let academicBonus : ℚ :=
    min (((fallbackAcademicTerms.filter (fun term => Py.containsSub term.data textL)).length : ℚ) * 3) 20
  Py.pyRound 2 (min (baseScore + bestMatchScore + academicBonus) 100)

/-- calculate_final_relevance(keyword_score, phi_score): asymmetric blend that
gives weight 0.7 to the larger of the two scores, floored at 25 and rounded to
two decimal places. -/
def calculateFinalRelevance (keywordScore phiScore : ℚ) : ℚ :=
  let finalScore :=
    if phiScore < keywordScore then keywordScore * 0.7 + phiScore * 0.3
    else keywordScore * 0.3 + phiScore * 0.7
  Py.pyRound 2 (max finalScore 25)

end CR
/-- Claim C6, counterexample: at keyword score 100 and LLM score 70.551 the
combiner returns 91.17 (the blend 91.1653 rounded to two decimals), not the
claimed max(25, 0.7*max + 0.3*min) = 91.1653, so the claimed exact equality
fails. -/
theorem C6_counterexample :
    CR.calculateFinalRelevance 100 (70551/1000) ≠
      max 25 (0.7 * max 100 ((70551:ℚ)/1000) + 0.3 * min 100 ((70551:ℚ)/1000)) := by
  have h1 : ((70551:ℚ)/1000) < 100 := by norm_num
  have hx : CR.calculateFinalRelevance 100 (70551/1000) = 9117/100 := by
    simp only [CR.calculateFinalRelevance, if_pos h1]
    have hmax : max ((100:ℚ) * 0.7 + 70551 / 1000 * 0.3) 25 = 911653/10000 := by
      rw [max_eq_left (by norm_num)]
      norm_num
    rw [hmax]
    rw [Py.pyRound_eq_of_half_lt 2 _ 9116 (by rw [Int.floor_eq_iff] <;> norm_num)
      (by push_cast; norm_num)]
    norm_num
  rw [hx, max_eq_left h1.le, min_eq_right h1.le, max_eq_right (by norm_num)]
  norm_num

/-- Claim C6 (amended): the final relevance combiner returns
max(25, 0.7*max(k,p) + 0.3*min(k,p)) rounded to two decimal places — the
larger input always receives the larger weight 0.7 — and the result is never
below the floor of 25. -/
theorem C6_final_relevance_blend (k p : ℚ) :
    CR.calculateFinalRelevance k p =
      Py.pyRound 2 (max 25 (0.7 * max k p + 0.3 * min k p)) ∧
    25 ≤ CR.calculateFinalRelevance k p := by
  have hblend : (if p < k then k * 0.7 + p * 0.3 else k * 0.3 + p * 0.7) =
      0.7 * max k p + 0.3 * min k p := by
    by_cases h : p < k
    · rw [if_pos h, max_eq_left h.le, min_eq_right h.le]
      ring
    · push_neg at h
      rw [if_neg (not_lt.mpr h), max_eq_right h, min_eq_left h]
      ring
  constructor
  · simp only [CR.calculateFinalRelevance]
    rw [hblend, max_comm]
  · simp only [CR.calculateFinalRelevance]
    have h25 : ((25:ℤ):ℚ) ≤ max (if p < k then k * 0.7 + p * 0.3 else k * 0.3 + p * 0.7) 25 := by
      push_cast
      exact le_max_right _ _
    have := Py.le_pyRound_of_le 2 h25
    simpa using this

/- ===== src/AI_analysis_engine/advanced_plagiarism_algorithms.py =====
Human-friendly plagiarism scoring: eight feature/similarity algorithms,
human-writing indicators, and the weighted aggregate. -/

namespace APA

/-- The seven human-writing indicator counters of detect_human_writing_patterns
(grammar_variations is initialised and never updated in the source). -/
structure HumanIndicators where
  personal_pronouns : ℕ
  informal_language : ℕ
  spelling_errors : ℕ
  grammar_variations : ℕ
  personal_opinions : ℕ
  author_attribution : ℕ
  handwritten_markers : ℕ
deriving DecidableEq

/-- Result record of calculate_advanced_plagiarism (human_indicators is kept
as the record; the default result stores an empty dict, modelled as zeros). -/
structure Result where
  plagiarism_percentage : ℚ
  ai_confidence : ℚ
  paragraph_consistency : ℚ
  sentence_variety : ℚ
  lexical_diversity : ℚ
  repetitive_patterns : ℚ
  structural_patterns : ℚ
  semantic_similarity : ℚ
  statistical_similarity : ℚ
  ngram_similarity : ℚ
  top_features_score : ℚ
deriving DecidableEq

/-- Mean of a list of counts: sum(lengths) / len(lengths). -/
def avgOf (lengths : List ℕ) : ℚ :=
  (lengths.sum : ℚ) / lengths.length

/-- Population variance of a list of counts:
sum((l - avg)**2 for l in lengths) / len(lengths). -/
def varOf (lengths : List ℕ) : ℚ :=
  ((lengths.map (fun l => ((l : ℚ) - avgOf lengths) ^ 2)).sum) / lengths.length

/-- calculate_paragraph_consistency(text). -/
def calcParagraphConsistency (text : String) : ℚ :=
  let paragraphs := ((Py.splitLit "\n\n".data text.data).map Py.stripWs).filter (· ≠ [])
  if paragraphs.length < 2 then 30
  else
    let lengths := paragraphs.map (fun p => (Py.splitWs p).length)
    if lengths = [] then 30
    else if avgOf lengths = 0 then 30
    else min (max 20 (60 - varOf lengths / avgOf lengths * 3)) 70

/-- calculate_sentence_variety(text). -/
def calcSentenceVariety (text : String) : ℚ :=
  let sentences := ((Py.splitRuns (fun c => c == '.' || c == '!' || c == '?') text.data).filter
    (fun s => Py.stripWs s ≠ [] ∧ 2 < (Py.splitWs s).length)).map Py.stripWs
  if sentences.length < 3 then 40
  else
    let lengths := sentences.map (fun s => (Py.splitWs s).length)
    if avgOf lengths = 0 then 40
    else min (varOf lengths / avgOf lengths * 10 + 30) 70

/-- calculate_lexical_diversity(text). -/
def calcLexicalDiversity (text : String) : ℚ :=
  let ws := Py.wordTokens (Py.lower text.data)
  if ws.length < 20 then 50
  else min ((ws.dedup.length : ℚ) / ws.length * 100) 75

/-- calculate_repetitive_patterns(text): four-word shingles occurring more
than twice.  The joined phrase strings of the source are modelled as the
four-word lists themselves (the words carry no whitespace, so joining with a
space is injective). -/
def calcRepetitivePatterns (text : String) : ℚ :=
  let ws := Py.splitWs (Py.lower text.data)
  if ws.length < 10 then 0
  else
    let phrases := (List.range (ws.length - 3)).map (fun i => (ws.drop i).take 4)
    let repeated := (phrases.dedup.filter (fun ph => 2 < phrases.count ph)).length
    if phrases = [] then 0
    else min (((repeated : ℚ) / phrases.length) * 50) 20

/-- re.match(r'^\s*[-â€¢*]\s', line): the source file holds the mojibake bytes
of a bullet character, read by Python as the three characters â, €, ¢ inside
the class. -/
def matchBulletLine (l : List Char) : Bool :=
  match l.dropWhile Py.isWs with
  | c :: d :: _ =>
    (c == '-' || c == 'â' || c == '€' || c == '¢' || c == '*') && Py.isWs d
  | _ => false

/-- re.match(r'^\s*\d+\.\s', line). -/
def matchNumberedLine (l : List Char) : Bool :=
  let rest := l.dropWhile Py.isWs
  let ds := rest.takeWhile Char.isDigit
  !ds.isEmpty &&
    match rest.drop ds.length with
    | '.' :: d :: _ => Py.isWs d
    | _ => false

/-- Python str.isupper(): at least one cased character and no lowercase cased
character (ASCII fragment). -/
def pyIsUpper (l : List Char) : Bool :=
  l.any Char.isAlpha && l.all (fun c => !c.isAlpha || c.isUpper)

/-- calculate_structural_patterns(text). -/
def calcStructuralPatterns (text : String) : ℚ :=
  let lines := Py.splitLit ['\n'] text.data
  let totalLines := (lines.filter (fun l => Py.stripWs l ≠ [])).length
  if totalLines = 0 then 0
  else
    let bullets := (lines.filter matchBulletLine).length
    let numbered := (lines.filter matchNumberedLine).length
    let headers := (lines.filter (fun l =>
      Py.stripWs l ≠ [] ∧ (pyIsUpper l || l.getLast? == some ':') = true)).length
    min ((((bullets + numbered + headers : ℕ) : ℚ) / totalLines) * 50) 20

/-- calculate_statistical_similarity(text1, text2). -/
def calcStatisticalSimilarity (text1 text2 : String) : ℚ :=
  if text1.data = [] ∨ text2.data = [] then 10
  else
    let w1 := Py.wordTokens (Py.lower text1.data)
    let w2 := Py.wordTokens (Py.lower text2.data)
    if w1 = [] ∨ w2 = [] then 10
    else
      let common := w1.dedup.filter (fun w => w2.dedup.contains w)
      if common = [] then 5
      else
        let sim : ℚ := (common.map (fun w =>
          min ((w1.count w : ℚ) / w1.length) ((w2.count w : ℚ) / w2.length))).sum
        min (sim * 60) 40

/-- calculate_semantic_similarity(text, reference, keywords). -/
def calcSemanticSimilarity (text reference : String) (keywords : List String) : ℚ :=
  if keywords = [] then 0
  else
    let textL := Py.lower text.data
    let refL := if reference.data ≠ [] then Py.lower reference.data else []
    let textMatches := (keywords.filter (fun w => Py.containsSub (Py.lower w.data) textL)).length
    let refMatches := if reference.data ≠ [] then
      (keywords.filter (fun w => Py.containsSub (Py.lower w.data) refL)).length else 0
    let tr : ℚ := (textMatches : ℚ) / keywords.length
    let rr : ℚ := if reference.data ≠ [] then (refMatches : ℚ) / keywords.length else 0
    min ((tr + rr) * 30) 25

/-- calculate_ngram_similarity(text1, text2): Jaccard similarity of the
three-word shingle sets, scaled by 60 and capped at 30. -/
def calcNgramSimilarity (text1 text2 : String) : ℚ :=
  if text1.data = [] ∨ text2.data = [] then 0
  else
    let w1 := Py.wordTokens (Py.lower text1.data)
    let w2 := Py.wordTokens (Py.lower text2.data)
    if w1.length < 5 ∨ w2.length < 5 then 0
    else
      let ngrams1 := ((List.range (w1.length - 2)).map (fun i => (w1.drop i).take 3)).dedup
      let ngrams2 := ((List.range (w2.length - 2)).map (fun i => (w2.drop i).take 3)).dedup
      if ngrams1 = [] ∨ ngrams2 = [] then 0
      else
        let inter := (ngrams1.filter (fun g => ngrams2.contains g)).length
        let union := ((ngrams1 ++ ngrams2).dedup).length
        min (if 0 < union then ((inter : ℚ) / union) * 60 else 0) 30

/-- Non-overlapping matches of re.findall(r'[a-z][A-Z]', text). -/
def countLowerUpperPairs : List Char → ℕ
  | a :: b :: rest =>
    if a.isLower && b.isUpper then 1 + countLowerUpperPairs rest
    else countLowerUpperPairs (b :: rest)
  | _ => 0

/-- detect_human_writing_patterns(text). -/
def detectHumanWritingPatterns (text : String) : HumanIndicators :=
  let textL := Py.lower text.data
  let pronouns := ["i", "we", "my", "our", "me", "us"]
  let informalPatterns := ["very good", "many opportunities", "nowadays", "also", "etc", "like"]
  let opinionWords := ["good", "powerful", "noticed", "rising"]
  let years := ["2023", "2024", "2025", "2026", "2027"]
  let mixedCase := countLowerUpperPairs text.data
  let multipleSpaces := ((Py.runsOf Py.isWs text.data).filter (fun r => 2 ≤ r.length)).length
  let shortLines := ((Py.splitLit ['\n'] text.data).filter (fun l =>
    0 < (Py.stripWs l).length ∧ (Py.stripWs l).length < 10)).length
  { personal_pronouns :=
      (pronouns.filter (fun p => Py.containsSub (" " ++ p ++ " ").data textL)).length,
    informal_language :=
      (informalPatterns.filter (fun p => Py.containsSub p.data textL)).length,
    spelling_errors :=
      (if Py.containsSub "lear ".data textL then 1 else 0) +
      (if Py.containsSub "modles".data textL then 1 else 0) +
      (if Py.containsSub "ALso".data text.data then 1 else 0),
    grammar_variations := 0,
    personal_opinions :=
      (opinionWords.filter (fun w => Py.containsSub w.data textL)).length,
    author_attribution :=
      if Py.containsSub "created by".data textL ∨ Py.containsSub "b.tech".data textL ∨
          years.any (fun y => Py.containsSub y.data text.data) then 10 else 0,
    handwritten_markers :=
      if 3 < mixedCase ∨ 8 < multipleSpaces ∨ 5 < shortLines then 20 else 0 }

/-- calculate_human_bonus(text, human_indicators). -/
def calculateHumanBonus (hi : HumanIndicators) : ℚ :=
  min ((hi.author_attribution : ℚ) * 2 + hi.personal_pronouns * 1.5 +
    hi.informal_language * 1 + hi.spelling_errors * 2 +
    hi.personal_opinions * 0.5 + hi.handwritten_markers * 3) 45

/-- _default_result() for insufficient content. -/
def defaultResult : Result :=
  { plagiarism_percentage := 15, ai_confidence := 20,
    paragraph_consistency := 25, sentence_variety := 30, lexical_diversity := 35,
    repetitive_patterns := 0, structural_patterns := 0,
    semantic_similarity := 0, statistical_similarity := 15, ngram_similarity := 0,
    top_features_score := 35 }

/-- calculate_advanced_plagiarism(ocr_text, reference_content, keywords). -/
def calculateAdvancedPlagiarism (ocrText referenceContent : String)
    (keywords : List String) : Result :=
  if ocrText.data = [] ∨ (Py.stripWs ocrText.data).length < 50 then defaultResult
  else
    let hi := detectHumanWritingPatterns ocrText
    let pc := calcParagraphConsistency ocrText
    let sv := calcSentenceVariety ocrText
    let ld := calcLexicalDiversity ocrText
    let rp := calcRepetitivePatterns ocrText
    let sp := calcStructuralPatterns ocrText
    let stat := calcStatisticalSimilarity ocrText referenceContent
    let sem := calcSemanticSimilarity ocrText referenceContent keywords
    let ng := calcNgramSimilarity ocrText referenceContent
    let humanBonus := calculateHumanBonus hi
    let aiConfidence := max 0 ((pc + sv + ld) / 3 - humanBonus)
    let baseScore := stat * 0.20 + sem * 0.15 + ng * 0.10 +
      pc * 0.15 + sv * 0.15 + ld * 0.15 + rp * 0.05 + sp * 0.05
    let finalScore := max 5 (baseScore - humanBonus)
    { plagiarism_percentage := Py.pyRound 14 finalScore,
      ai_confidence := Py.pyRound 14 aiConfidence,
      paragraph_consistency := Py.pyRound 14 pc,
      sentence_variety := Py.pyRound 14 sv,
      lexical_diversity := Py.pyRound 14 ld,
      repetitive_patterns := Py.pyRound 14 rp,
      structural_patterns := Py.pyRound 14 sp,
      semantic_similarity := Py.pyRound 14 sem,
      statistical_similarity := Py.pyRound 14 stat,
      ngram_similarity := Py.pyRound 14 ng,
      top_features_score := Py.pyRound 14 (max (max pc sv) (max ld stat)) }

end APA

/-- Counterexample input for C10: one letter, 48 inner spaces, one letter —
two non-whitespace characters, but str.strip() removes nothing, so the
stripped length is 50 and the full scoring branch runs. -/
def c10Text : String := "a                                                b"

/-- Spec-side definition for the wording of claim C10: the number of
non-whitespace characters of a text. -/
def nonWsCount (t : String) : ℕ := (t.data.filter (fun c => ! Py.isWs c)).length

/-- Claim C10, counterexample: a text with only 2 non-whitespace characters
(but stripped length 50) does not get the fixed default result 15.0 — the
full scoring branch runs and returns 20, because the branch condition is on
len(text.strip()), not on the non-whitespace character count. -/
theorem C10_counterexample :
    nonWsCount c10Text < 50 ∧
    (APA.calculateAdvancedPlagiarism c10Text "" []).plagiarism_percentage ≠ 15 := by
  constructor
  · decide
  · have hpc : APA.calcParagraphConsistency c10Text = 30 := by
      simp only [APA.calcParagraphConsistency]
      rw [if_pos (by decide)]
    have hsv : APA.calcSentenceVariety c10Text = 40 := by
      simp only [APA.calcSentenceVariety]
      rw [if_pos (by decide)]
    have hld : APA.calcLexicalDiversity c10Text = 50 := by
      simp only [APA.calcLexicalDiversity]
      rw [if_pos (by decide)]
    have hrp : APA.calcRepetitivePatterns c10Text = 0 := by
      simp only [APA.calcRepetitivePatterns]
      rw [if_pos (by decide)]
    have hsp : APA.calcStructuralPatterns c10Text = 0 := by
      simp only [APA.calcStructuralPatterns]
      rw [if_neg (by decide)]
      have hb : ((Py.splitLit ['\n'] c10Text.data).filter APA.matchBulletLine).length = 0 := by
        decide
      have hn : ((Py.splitLit ['\n'] c10Text.data).filter APA.matchNumberedLine).length = 0 := by
        decide
      have hh : ((Py.splitLit ['\n'] c10Text.data).filter (fun l =>
          Py.stripWs l ≠ [] ∧ (APA.pyIsUpper l || l.getLast? == some ':') = true)).length = 0 := by
        decide
      have ht : ((Py.splitLit ['\n'] c10Text.data).filter (fun l => Py.stripWs l ≠ [])).length = 1 := by
        decide
      rw [hb, hn, hh, ht]
      norm_num
    have hstat : APA.calcStatisticalSimilarity c10Text "" = 10 := by
      simp only [APA.calcStatisticalSimilarity]
      rw [if_pos (by decide)]
    have hsem : APA.calcSemanticSimilarity c10Text "" [] = 0 := by
      simp [APA.calcSemanticSimilarity]
    have hng : APA.calcNgramSimilarity c10Text "" = 0 := by
      simp only [APA.calcNgramSimilarity]
      rw [if_pos (by decide)]
    have hhi : APA.detectHumanWritingPatterns c10Text =
        ⟨0, 0, 0, 0, 0, 0, 0⟩ := by decide
    have hbonus : APA.calculateHumanBonus ⟨0, 0, 0, 0, 0, 0, 0⟩ = 0 := by
      simp only [APA.calculateHumanBonus]
      norm_num
    simp only [APA.calculateAdvancedPlagiarism]
    rw [if_neg (by decide)]
    dsimp only
    rw [hpc, hsv, hld, hrp, hsp, hstat, hsem, hng, hhi, hbonus]
    rw [show max (5:ℚ) (10 * 0.20 + 0 * 0.15 + 0 * 0.10 + 30 * 0.15 + 40 * 0.15 +
      50 * 0.15 + 0 * 0.05 + 0 * 0.05 - 0) = 20 by norm_num]
    have h20 := Py.pyRound_intCast 14 20
    rw [show ((20:ℤ):ℚ) = 20 by norm_num] at h20
    rw [h20]
    norm_num

/-- Claim C10 (amended): calculate_advanced_plagiarism never returns a
plagiarism percentage below 5: every text whose stripped length is below 50
(the branch condition is len(text.strip()) < 50, not a non-whitespace
character count) gets the fixed default result with percentage 15.0, and all
other texts get round(max(5.0, weighted base score minus human-writing
bonus), 14) which is at least 5 — so no submission is ever reported at 0%. -/
theorem C10_percentage_floor (t ref : String) (kws : List String) :
    5 ≤ (APA.calculateAdvancedPlagiarism t ref kws).plagiarism_percentage ∧
    ((Py.stripWs t.data).length < 50 →
      (APA.calculateAdvancedPlagiarism t ref kws).plagiarism_percentage = 15) := by
  by_cases hc : t.data = [] ∨ (Py.stripWs t.data).length < 50
  · simp only [APA.calculateAdvancedPlagiarism]
    rw [if_pos hc]
    exact ⟨by norm_num [APA.defaultResult], fun _ => rfl⟩
  · simp only [APA.calculateAdvancedPlagiarism]
    rw [if_neg hc]
    constructor
    · dsimp only
      have h5 : ((5:ℤ):ℚ) ≤ max 5 (APA.calcStatisticalSimilarity t ref * 0.20 +
          APA.calcSemanticSimilarity t ref kws * 0.15 +
          APA.calcNgramSimilarity t ref * 0.10 +
          APA.calcParagraphConsistency t * 0.15 + APA.calcSentenceVariety t * 0.15 +
          APA.calcLexicalDiversity t * 0.15 + APA.calcRepetitivePatterns t * 0.05 +
          APA.calcStructuralPatterns t * 0.05 -
          APA.calculateHumanBonus (APA.detectHumanWritingPatterns t)) := by
        push_cast
        exact le_max_left _ _
      have := Py.le_pyRound_of_le 14 h5
      simpa using this
    · intro h
      exact absurd (Or.inr h) hc

/-- Witness for C10 at a short text. -/
theorem C10_witness :
    5 ≤ (APA.calculateAdvancedPlagiarism "hi" "" []).plagiarism_percentage ∧
    (APA.calculateAdvancedPlagiarism "hi" "" []).plagiarism_percentage = 15 :=
  ⟨(C10_percentage_floor "hi" "" []).1, (C10_percentage_floor "hi" "" []).2 (by decide)⟩

/- Bounds of the APA component scores, used for the global score-range
invariant (claim C1). -/

namespace APA

theorem avgOf_nonneg (lengths : List ℕ) : 0 ≤ avgOf lengths := by
  unfold avgOf
  positivity

theorem varOf_nonneg (lengths : List ℕ) : 0 ≤ varOf lengths := by
  unfold varOf
  apply div_nonneg
  · apply List.sum_nonneg
    intro x hx
    obtain ⟨l, _, hl⟩ := List.mem_map.mp hx
    rw [← hl]
    positivity
  · positivity

theorem calcParagraphConsistency_range (t : String) :
    0 ≤ calcParagraphConsistency t ∧ calcParagraphConsistency t ≤ 70 := by
  simp only [calcParagraphConsistency]
  split_ifs
  · exact ⟨by norm_num, by norm_num⟩
  · exact ⟨by norm_num, by norm_num⟩
  · exact ⟨by norm_num, by norm_num⟩
  · exact ⟨le_min (le_trans (by norm_num) (le_max_left 20 _)) (by norm_num),
      min_le_right _ _⟩

theorem calcSentenceVariety_range (t : String) :
    0 ≤ calcSentenceVariety t ∧ calcSentenceVariety t ≤ 70 := by
  simp only [calcSentenceVariety]
  split_ifs
  · exact ⟨by norm_num, by norm_num⟩
  · exact ⟨by norm_num, by norm_num⟩
  · refine ⟨le_min ?_ (by norm_num), min_le_right _ _⟩
    have h1 := varOf_nonneg ((((Py.splitRuns (fun c => c == '.' || c == '!' || c == '?')
      t.data).filter (fun s => Py.stripWs s ≠ [] ∧ 2 < (Py.splitWs s).length)).map
        Py.stripWs).map (fun s => (Py.splitWs s).length))
    have h2 := avgOf_nonneg ((((Py.splitRuns (fun c => c == '.' || c == '!' || c == '?')
      t.data).filter (fun s => Py.stripWs s ≠ [] ∧ 2 < (Py.splitWs s).length)).map
        Py.stripWs).map (fun s => (Py.splitWs s).length))
    have h3 := div_nonneg h1 h2
    linarith

theorem calcLexicalDiversity_range (t : String) :
    0 ≤ calcLexicalDiversity t ∧ calcLexicalDiversity t ≤ 75 := by
  simp only [calcLexicalDiversity]
  split_ifs
  · exact ⟨by norm_num, by norm_num⟩
  · exact ⟨le_min (by positivity) (by norm_num), min_le_right _ _⟩

theorem calcRepetitivePatterns_range (t : String) :
    0 ≤ calcRepetitivePatterns t ∧ calcRepetitivePatterns t ≤ 20 := by
  simp only [calcRepetitivePatterns]
  split_ifs
  · exact ⟨by norm_num, by norm_num⟩
  · exact ⟨by norm_num, by norm_num⟩
  · exact ⟨le_min (by positivity) (by norm_num), min_le_right _ _⟩

theorem calcStructuralPatterns_range (t : String) :
    0 ≤ calcStructuralPatterns t ∧ calcStructuralPatterns t ≤ 20 := by
  simp only [calcStructuralPatterns]
  split_ifs
  · exact ⟨by norm_num, by norm_num⟩
  · exact ⟨le_min (by positivity) (by norm_num), min_le_right _ _⟩

theorem calcStatisticalSimilarity_range (t ref : String) :
    0 ≤ calcStatisticalSimilarity t ref ∧ calcStatisticalSimilarity t ref ≤ 40 := by
  simp only [calcStatisticalSimilarity]
  split_ifs
  · exact ⟨by norm_num, by norm_num⟩
  · exact ⟨by norm_num, by norm_num⟩
  · exact ⟨by norm_num, by norm_num⟩
  · refine ⟨le_min ?_ (by norm_num), min_le_right _ _⟩
    apply mul_nonneg _ (by norm_num)
    apply List.sum_nonneg
    intro x hx
    obtain ⟨w, _, hw⟩ := List.mem_map.mp hx
    rw [← hw]
    exact le_min (by positivity) (by positivity)

theorem calcSemanticSimilarity_range (t ref : String) (kws : List String) :
    0 ≤ calcSemanticSimilarity t ref kws ∧ calcSemanticSimilarity t ref kws ≤ 25 := by
  simp only [calcSemanticSimilarity]
  split_ifs
  · exact ⟨by norm_num, by norm_num⟩
  · exact ⟨le_min (by positivity) (by norm_num), min_le_right _ _⟩
  · exact ⟨le_min (by positivity) (by norm_num), min_le_right _ _⟩

theorem calcNgramSimilarity_range (t ref : String) :
    0 ≤ calcNgramSimilarity t ref ∧ calcNgramSimilarity t ref ≤ 30 := by
  simp only [calcNgramSimilarity]
  split_ifs
  · exact ⟨by norm_num, by norm_num⟩
  · exact ⟨by norm_num, by norm_num⟩
  · exact ⟨by norm_num, by norm_num⟩
  · exact ⟨le_min (by positivity) (by norm_num), min_le_right _ _⟩
  · exact ⟨le_min (by norm_num) (by norm_num), min_le_right _ _⟩

theorem calculateHumanBonus_range (hi : HumanIndicators) :
    0 ≤ calculateHumanBonus hi ∧ calculateHumanBonus hi ≤ 45 := by
  simp only [calculateHumanBonus]
  exact ⟨le_min (by positivity) (by norm_num), min_le_right _ _⟩

/-- Every field of the calculate_advanced_plagiarism result lies in [0, 100]. -/
theorem result_range (t ref : String) (kws : List String) :
    let r := calculateAdvancedPlagiarism t ref kws
    (0 ≤ r.plagiarism_percentage ∧ r.plagiarism_percentage ≤ 100) ∧
    (0 ≤ r.ai_confidence ∧ r.ai_confidence ≤ 100) ∧
    (0 ≤ r.paragraph_consistency ∧ r.paragraph_consistency ≤ 100) ∧
    (0 ≤ r.sentence_variety ∧ r.sentence_variety ≤ 100) ∧
    (0 ≤ r.lexical_diversity ∧ r.lexical_diversity ≤ 100) ∧
    (0 ≤ r.repetitive_patterns ∧ r.repetitive_patterns ≤ 100) ∧
    (0 ≤ r.structural_patterns ∧ r.structural_patterns ≤ 100) ∧
    (0 ≤ r.semantic_similarity ∧ r.semantic_similarity ≤ 100) ∧
    (0 ≤ r.statistical_similarity ∧ r.statistical_similarity ≤ 100) ∧
    (0 ≤ r.ngram_similarity ∧ r.ngram_similarity ≤ 100) ∧
    (0 ≤ r.top_features_score ∧ r.top_features_score ≤ 100) := by
  intro r
  have hround : ∀ x : ℚ, 0 ≤ x → x ≤ 100 → 0 ≤ Py.pyRound 14 x ∧ Py.pyRound 14 x ≤ 100 := by
    intro x h0 h1
    constructor
    · have := Py.le_pyRound_of_le 14 (a := 0) (by exact_mod_cast h0)
      simpa using this
    · have := Py.pyRound_le_of_le 14 (b := 100) (by exact_mod_cast h1)
      simpa using this
  show _ ∧ _
  by_cases hc : t.data = [] ∨ (Py.stripWs t.data).length < 50
  · have : r = defaultResult := by
      show calculateAdvancedPlagiarism t ref kws = _
      simp only [calculateAdvancedPlagiarism]
      rw [if_pos hc]
    rw [this]
    simp only [defaultResult]
    norm_num
  · have hpc := calcParagraphConsistency_range t
    have hsv := calcSentenceVariety_range t
    have hld := calcLexicalDiversity_range t
    have hrp := calcRepetitivePatterns_range t
    have hsp := calcStructuralPatterns_range t
    have hst := calcStatisticalSimilarity_range t ref
    have hse := calcSemanticSimilarity_range t ref kws
    have hng := calcNgramSimilarity_range t ref
    have hhb := calculateHumanBonus_range (detectHumanWritingPatterns t)
    have hr : r = calculateAdvancedPlagiarism t ref kws := rfl
    have hbody : calculateAdvancedPlagiarism t ref kws =
        { plagiarism_percentage := Py.pyRound 14 (max 5
            (calcStatisticalSimilarity t ref * 0.20 + calcSemanticSimilarity t ref kws * 0.15 +
             calcNgramSimilarity t ref * 0.10 + calcParagraphConsistency t * 0.15 +
             calcSentenceVariety t * 0.15 + calcLexicalDiversity t * 0.15 +
             calcRepetitivePatterns t * 0.05 + calcStructuralPatterns t * 0.05 -
             calculateHumanBonus (detectHumanWritingPatterns t))),
          ai_confidence := Py.pyRound 14 (max 0
            ((calcParagraphConsistency t + calcSentenceVariety t + calcLexicalDiversity t) / 3 -
             calculateHumanBonus (detectHumanWritingPatterns t))),
          paragraph_consistency := Py.pyRound 14 (calcParagraphConsistency t),
          sentence_variety := Py.pyRound 14 (calcSentenceVariety t),
          lexical_diversity := Py.pyRound 14 (calcLexicalDiversity t),
          repetitive_patterns := Py.pyRound 14 (calcRepetitivePatterns t),
          structural_patterns := Py.pyRound 14 (calcStructuralPatterns t),
          semantic_similarity := Py.pyRound 14 (calcSemanticSimilarity t ref kws),
          statistical_similarity := Py.pyRound 14 (calcStatisticalSimilarity t ref),
          ngram_similarity := Py.pyRound 14 (calcNgramSimilarity t ref),
          top_features_score := Py.pyRound 14 (max (max (calcParagraphConsistency t)
            (calcSentenceVariety t)) (max (calcLexicalDiversity t)
              (calcStatisticalSimilarity t ref))) } := by
      simp only [calculateAdvancedPlagiarism]
      rw [if_neg hc]
    rw [hr, hbody]
    refine ⟨?_, ?_, ?_, ?_, ?_, ?_, ?_, ?_, ?_, ?_, ?_⟩
    · exact hround _ (le_trans (by norm_num) (le_max_left 5 _))
        (max_le (by norm_num) (by nlinarith [hpc.1, hpc.2, hsv.1, hsv.2, hld.1, hld.2,
          hrp.1, hrp.2, hsp.1, hsp.2, hst.1, hst.2, hse.1, hse.2, hng.1, hng.2,
          hhb.1, hhb.2]))
    · exact hround _ (le_max_left 0 _)
        (max_le (by norm_num) (by nlinarith [hpc.1, hpc.2, hsv.1, hsv.2, hld.1, hld.2,
          hhb.1, hhb.2]))
    · exact hround _ hpc.1 (by linarith [hpc.2])
    · exact hround _ hsv.1 (by linarith [hsv.2])
    · exact hround _ hld.1 (by linarith [hld.2])
    · exact hround _ hrp.1 (by linarith [hrp.2])
    · exact hround _ hsp.1 (by linarith [hsp.2])
    · exact hround _ hse.1 (by linarith [hse.2])
    · exact hround _ hst.1 (by linarith [hst.2])
    · exact hround _ hng.1 (by linarith [hng.2])
    · refine hround _ (le_trans hpc.1 (le_trans (le_max_left _ _) (le_max_left _ _))) ?_
      exact max_le (max_le (by linarith [hpc.2]) (by linarith [hsv.2]))
        (max_le (by linarith [hld.2]) (by linarith [hst.2]))

end APA

/- Bounds of the content_relevance scores (claim C1). -/

namespace CR

theorem le_foldl_max (l : List ℚ) (init : ℚ) : init ≤ l.foldl max init := by
  induction l generalizing init with
  | nil => exact le_refl _
  | cons a t ih => exact le_trans (le_max_left init a) (ih (max init a))

theorem checkBroaderRelevance_range (textL : List Char) (kws : List String) :
    0 ≤ checkBroaderRelevance textL kws ∧ checkBroaderRelevance textL kws ≤ 40 := by
  simp only [checkBroaderRelevance]
  exact ⟨le_min (by positivity) (by norm_num), min_le_right _ _⟩

/-- check_groq_word_relevance stays within [0, 100] (the keyword list must be
non-empty: the Python code divides by len(keywords)). -/
theorem checkGroqWordRelevance_range (t : String) (kws : List String) (h : kws ≠ []) :
    0 ≤ checkGroqWordRelevance t kws ∧ checkGroqWordRelevance t kws ≤ 100 := by
  simp only [checkGroqWordRelevance]
  split_ifs
  · exact ⟨by norm_num, by norm_num⟩
  · have hb := checkBroaderRelevance_range (Py.lower t.data) kws
    constructor
    · have h0 : (0:ℚ) ≤ min (min (((kws.map (fun w =>
          Py.countOccur (Py.lower w.data) (Py.lower t.data))).sum : ℚ) / kws.length * 40) 100 +
          checkBroaderRelevance (Py.lower t.data) kws) 100 := by
        refine le_min (add_nonneg (le_min (by positivity) (by norm_num)) hb.1) (by norm_num)
      have := Py.le_pyRound_of_le 2 (a := 0) (by exact_mod_cast h0)
      simpa using this
    · have h1 : min (min (((kws.map (fun w =>
          Py.countOccur (Py.lower w.data) (Py.lower t.data))).sum : ℚ) / kws.length * 40) 100 +
          checkBroaderRelevance (Py.lower t.data) kws) 100 ≤ 100 := min_le_right _ _
      have := Py.pyRound_le_of_le 2 (b := 100) (by exact_mod_cast h1)
      simpa using this

theorem calculateEnhancedFallbackRelevance_range (t s : String) :
    0 ≤ calculateEnhancedFallbackRelevance t s ∧
      calculateEnhancedFallbackRelevance t s ≤ 100 := by
  simp only [calculateEnhancedFallbackRelevance]
  rw [show (30:ℚ) + 30 = 60 by norm_num]
  constructor
  · have h0 : (0:ℚ) ≤ min ((if Py.containsSub (Py.lower s.data) (Py.lower t.data) = true
        then (60:ℚ) else 30) +
        (fallbackSubjectKeywords.map (fun e =>
          if (Py.splitWs e.1.data).any (fun term => Py.containsSub term (Py.lower s.data)) = true then
            min (((e.2.filter (fun kw => Py.containsSub kw.data (Py.lower t.data))).length : ℚ) * 8) 50
          else 0)).foldl max 0 +
        min (((fallbackAcademicTerms.filter (fun term =>
          Py.containsSub term.data (Py.lower t.data))).length : ℚ) * 3) 20) 100 := by
      refine le_min (add_nonneg (add_nonneg ?_ (le_foldl_max _ 0)) ?_) (by norm_num)
      · split_ifs <;> norm_num
      · exact le_min (by positivity) (by norm_num)
    have := Py.le_pyRound_of_le 2 (a := 0) (by exact_mod_cast h0)
    simpa using this
  · have h1 := min_le_right ((if Py.containsSub (Py.lower s.data) (Py.lower t.data) = true
        then (60:ℚ) else 30) +
        (fallbackSubjectKeywords.map (fun e =>
          if (Py.splitWs e.1.data).any (fun term => Py.containsSub term (Py.lower s.data)) = true then
            min (((e.2.filter (fun kw => Py.containsSub kw.data (Py.lower t.data))).length : ℚ) * 8) 50
          else 0)).foldl max 0 +
        min (((fallbackAcademicTerms.filter (fun term =>
          Py.containsSub term.data (Py.lower t.data))).length : ℚ) * 3) 20) (100:ℚ)
    have := Py.pyRound_le_of_le 2 (b := 100) (by exact_mod_cast h1)
    simpa using this

/-- calculate_final_relevance maps [0,100] inputs into [25, 100]. -/
theorem calculateFinalRelevance_range (k p : ℚ) (hk0 : 0 ≤ k) (hk1 : k ≤ 100)
    (hp0 : 0 ≤ p) (hp1 : p ≤ 100) :
    25 ≤ calculateFinalRelevance k p ∧ calculateFinalRelevance k p ≤ 100 := by
  simp only [calculateFinalRelevance]
  constructor
  · have h25 : ((25:ℤ):ℚ) ≤ max (if p < k then k * 0.7 + p * 0.3 else k * 0.3 + p * 0.7) 25 := by
      push_cast
      exact le_max_right _ _
    have := Py.le_pyRound_of_le 2 h25
    simpa using this
  · have h1 : max (if p < k then k * 0.7 + p * 0.3 else k * 0.3 + p * 0.7) 25 ≤ 100 := by
      refine max_le ?_ (by norm_num)
      split_ifs <;> nlinarith
    have := Py.pyRound_le_of_le 2 (b := 100) (by exact_mod_cast h1)
    simpa using this

end CR

/- ===== src/AI_analysis_engine/main_proposed-1750931890493.py, lines 1012-1071 =====
The pure decision block of process_assignment: collecting failure reasons in a
fixed order and deriving the final status.  The plagiarism/validation records
it consumes are produced by the LLM wrapper and the relevance checker, so
their fields are the inputs here.  Each reason is modelled as a tagged value
carrying the data interpolated into the reason message. -/

namespace MainDec

/-- The failure reasons of process_assignment, in the order they are tested. -/
inductive Reason
  | subjectMismatch (claimed detected : String)
  | differentSubject (subject : String) (score : ℚ)
  | notRelevant (subject : String) (score : ℚ)
  | highPlagiarism (pct : ℚ)
  | highAiConfidence (conf : ℚ)
  | aiPatterns
  | emoji (count : ℕ)
deriving DecidableEq

/-- The values process_assignment extracts before its decision block. -/
structure Inputs where
  subject : String
  subject_mismatch : Bool
  mismatch_claimed : String
  mismatch_detected : String
  validation_status : String
  relevance_score : ℚ
  plagiarism_percentage : ℚ
  ai_confidence : ℚ
  ai_patterns_detected : Bool
  emoji_detected : Bool
  emoji_count : ℕ
  strict_mode : Bool

/-- The failure_reasons list built by lines 1012-1061: subject mismatch is
checked first (suppressing the relevance reason when it fires), then the
plagiarism threshold (35 strict / 40 standard), the AI-confidence threshold
(30 strict / 60 standard), AI patterns, and emojis. -/
def failureReasons (i : Inputs) : List Reason :=
  (if i.subject_mismatch then [Reason.subjectMismatch i.mismatch_claimed i.mismatch_detected]
   else if i.validation_status ≠ "PASSED" then
     (if i.relevance_score < 30 then [Reason.differentSubject i.subject i.relevance_score]
      else [Reason.notRelevant i.subject i.relevance_score])
   else []) ++
  (if i.plagiarism_percentage > (if i.strict_mode then 35 else 40) then
    [Reason.highPlagiarism i.plagiarism_percentage] else []) ++
  (if i.ai_confidence > (if i.strict_mode then 30 else 60) then
    [Reason.highAiConfidence i.ai_confidence] else []) ++
  (if i.ai_patterns_detected then [Reason.aiPatterns] else []) ++
  (if i.emoji_detected then [Reason.emoji i.emoji_count] else [])

/-- Lines 1063-1071: PASSED without reasons, FAILED otherwise. -/
def status (i : Inputs) : String :=
  if failureReasons i = [] then "PASSED" else "FAILED"

/-- result["failure_reason"]: the first collected reason. -/
def primaryReason (i : Inputs) : Option Reason :=
  (failureReasons i).head?

end MainDec

/- ===== src/AI_analysis_engine/sandbox_analysis.py =====
run_sandbox_analysis: the full sandbox scoring pipeline.  The Phi LLM
relevance score is an external collaborator value, passed in; the wall clock
feeding the timestamp field is passed in as well. -/

namespace Sandbox

/-- The failure reasons of run_sandbox_analysis, in test order. -/
inductive Reason
  | subjectMismatch (subject : String)
  | highPlagiarism (pct : ℚ)
  | aiPatterns
  | notRelevant (subject : String) (score : ℚ)
deriving DecidableEq

/-- The fields of data/pre_processed.json's info record read by the sandbox. -/
structure Info where
  subject_name : String
  assignmentID : String
  username : String
  strict_ai_detection : Bool

/-- The fields of the sandbox result record covered by the embedding
(all_failure_reasons is None in the source when no reason fired; it is kept
as the plain list here, with failure_reason the designated first one). -/
structure Result where
  subject : String
  assignment_id : String
  username : String
  timestamp : String
  status : String
  plagiarism_percentage : ℚ
  ai_confidence : ℚ
  relevance_score : ℚ
  subject_mismatch : Bool
  failure_reason : Option Reason
  all_failure_reasons : List Reason

/-- The subject-mismatch signal of line 51: the lowered subject name does not
occur in the lowered OCR text. -/
def mismatchOf (info : Info) (ocrText : String) : Bool :=
  ! Py.containsSub (Py.lower info.subject_name.data) (Py.lower ocrText.data)

/-- The ordered failure_reasons list of lines 58-72. -/
def reasonsOf (info : Info) (ocrText scrapedContent : String)
    (groqWords : List String) (phiRelevance : ℚ) : List Reason :=
  (if mismatchOf info ocrText then [Reason.subjectMismatch info.subject_name] else []) ++
  (if (APA.calculateAdvancedPlagiarism ocrText scrapedContent groqWords).plagiarism_percentage >
      (if info.strict_ai_detection then (35:ℚ) else 40) then
    [Reason.highPlagiarism
      (APA.calculateAdvancedPlagiarism ocrText scrapedContent groqWords).plagiarism_percentage]
  else []) ++
  (if (APA.calculateAdvancedPlagiarism ocrText scrapedContent groqWords).ai_confidence > 40 then
    [Reason.aiPatterns] else []) ++
  (if CR.calculateFinalRelevance (CR.checkGroqWordRelevance ocrText groqWords) phiRelevance <
      (if info.strict_ai_detection then (60:ℚ) else 50) then
    [Reason.notRelevant info.subject_name
      (CR.calculateFinalRelevance (CR.checkGroqWordRelevance ocrText groqWords) phiRelevance)]
  else [])

/-- run_sandbox_analysis(): advanced plagiarism scoring, keyword and Phi
relevance blending, subject mismatch, thresholds and the ordered reasons. -/
def runSandboxAnalysis (info : Info) (ocrText scrapedContent : String)
    (groqWords : List String) (phiRelevance : ℚ) (clock : String) : Result :=
  { subject := info.subject_name
    assignment_id := info.assignmentID
    username := info.username
    timestamp := clock
    status := if reasonsOf info ocrText scrapedContent groqWords phiRelevance = []
      then "PASSED" else "FAILED"
    plagiarism_percentage :=
      (APA.calculateAdvancedPlagiarism ocrText scrapedContent groqWords).plagiarism_percentage
    ai_confidence :=
      (APA.calculateAdvancedPlagiarism ocrText scrapedContent groqWords).ai_confidence
    relevance_score :=
      CR.calculateFinalRelevance (CR.checkGroqWordRelevance ocrText groqWords) phiRelevance
    subject_mismatch := mismatchOf info ocrText
    failure_reason := (reasonsOf info ocrText scrapedContent groqWords phiRelevance).head?
    all_failure_reasons := reasonsOf info ocrText scrapedContent groqWords phiRelevance }

end Sandbox

/-- Claim C3: in both decision procedures (the process_assignment decision
block and run_sandbox_analysis) the failure reasons are collected in a fixed
order with subject-content mismatch tested first; the status is PASSED
exactly when the collected list is empty, otherwise FAILED with the primary
reason equal to the first collected reason — which is the subject-mismatch
reason whenever that signal fired.  The last conjunct of each part records
that an independent tripwire reason is collected exactly when its condition
fired. -/
theorem C3_decision_order :
    (∀ i : MainDec.Inputs,
      (MainDec.status i = "PASSED" ↔ MainDec.failureReasons i = []) ∧
      (∀ r rs, MainDec.failureReasons i = r :: rs →
        MainDec.status i = "FAILED" ∧ MainDec.primaryReason i = some r) ∧
      (i.subject_mismatch = true → ∃ rs, MainDec.failureReasons i =
        MainDec.Reason.subjectMismatch i.mismatch_claimed i.mismatch_detected :: rs) ∧
      (MainDec.Reason.aiPatterns ∈ MainDec.failureReasons i ↔ i.ai_patterns_detected = true) ∧
      (MainDec.Reason.emoji i.emoji_count ∈ MainDec.failureReasons i ↔ i.emoji_detected = true)) ∧
    (∀ (info : Sandbox.Info) (ocr scraped : String) (gw : List String) (phi : ℚ) (clock : String),
      ((Sandbox.runSandboxAnalysis info ocr scraped gw phi clock).status = "PASSED" ↔
        (Sandbox.runSandboxAnalysis info ocr scraped gw phi clock).all_failure_reasons = []) ∧
      (∀ r rs, (Sandbox.runSandboxAnalysis info ocr scraped gw phi clock).all_failure_reasons = r :: rs →
        (Sandbox.runSandboxAnalysis info ocr scraped gw phi clock).status = "FAILED" ∧
        (Sandbox.runSandboxAnalysis info ocr scraped gw phi clock).failure_reason = some r) ∧
      ((Sandbox.runSandboxAnalysis info ocr scraped gw phi clock).subject_mismatch = true →
        ∃ rs, (Sandbox.runSandboxAnalysis info ocr scraped gw phi clock).all_failure_reasons =
          Sandbox.Reason.subjectMismatch info.subject_name :: rs) ∧
      (Sandbox.Reason.aiPatterns ∈
          (Sandbox.runSandboxAnalysis info ocr scraped gw phi clock).all_failure_reasons ↔
        (APA.calculateAdvancedPlagiarism ocr scraped gw).ai_confidence > 40)) := by
  constructor
  · intro i
    refine ⟨?_, ?_, ?_, ?_, ?_⟩
    · unfold MainDec.status
      split_ifs with h
      · exact ⟨fun _ => h, fun _ => rfl⟩
      · exact ⟨fun hfp => absurd hfp (by decide), fun hc => absurd hc h⟩
    · intro r rs hcons
      unfold MainDec.status MainDec.primaryReason
      rw [hcons]
      exact ⟨by simp, rfl⟩
    · intro hm
      unfold MainDec.failureReasons
      rw [if_pos hm]
      exact ⟨_, rfl⟩
    · by_cases hap : i.ai_patterns_detected = true
      · refine iff_of_true ?_ hap
        unfold MainDec.failureReasons
        rw [if_pos hap]
        simp
      · refine iff_of_false ?_ hap
        unfold MainDec.failureReasons
        rw [if_neg hap]
        simp only [List.append_nil, List.mem_append]
        rintro ((h | h) | h) <;> revert h <;> split_ifs <;> simp
    · by_cases hem : i.emoji_detected = true
      · refine iff_of_true ?_ hem
        unfold MainDec.failureReasons
        rw [if_pos hem]
        simp
      · refine iff_of_false ?_ hem
        unfold MainDec.failureReasons
        rw [if_neg hem]
        simp only [List.append_nil, List.mem_append]
        rintro (((h | h) | h) | h) <;> revert h <;> split_ifs <;> simp
  · intro info ocr scraped gw phi clock
    refine ⟨?_, ?_, ?_, ?_⟩
    · show (if Sandbox.reasonsOf info ocr scraped gw phi = [] then "PASSED" else "FAILED") =
        "PASSED" ↔ Sandbox.reasonsOf info ocr scraped gw phi = []
      split_ifs with h
      · exact ⟨fun _ => h, fun _ => rfl⟩
      · exact ⟨fun hfp => absurd hfp (by decide), fun hc => absurd hc h⟩
    · intro r rs hcons
      have hcons2 : Sandbox.reasonsOf info ocr scraped gw phi = r :: rs := hcons
      constructor
      · show (if Sandbox.reasonsOf info ocr scraped gw phi = [] then "PASSED" else "FAILED") =
          "FAILED"
        rw [hcons2, if_neg (by simp)]
      · show (Sandbox.reasonsOf info ocr scraped gw phi).head? = some r
        rw [hcons2]
        rfl
    · intro hm
      have hm2 : Sandbox.mismatchOf info ocr = true := hm
      show ∃ rs, Sandbox.reasonsOf info ocr scraped gw phi = _ :: rs
      unfold Sandbox.reasonsOf
      rw [if_pos hm2]
      exact ⟨_, rfl⟩
    · show Sandbox.Reason.aiPatterns ∈ Sandbox.reasonsOf info ocr scraped gw phi ↔ _
      by_cases hc : (APA.calculateAdvancedPlagiarism ocr scraped gw).ai_confidence > 40
      · refine iff_of_true ?_ hc
        unfold Sandbox.reasonsOf
        rw [if_pos hc]
        simp
      · refine iff_of_false ?_ hc
        unfold Sandbox.reasonsOf
        rw [if_neg hc]
        simp only [List.append_nil, List.mem_append]
        rintro ((h | h) | h) <;> revert h <;> split_ifs <;> simp

/- ===== src/AI_analysis_engine/main_proposed-1750931890493.py, lines 578-765 =====
_enhanced_relevance_check: keyword validation, then LLM validation on an OCR
sample, then the fixed default of 45%.

The source as written cannot run at all: line 599 (and its duplicate at
line 1126) is an over-indented statement directly after line 598, an
unexpected indent that makes the whole module fail to parse - importing it
raises IndentationError, so _enhanced_relevance_check can never execute and
never returns anything (claim C5 is therefore a code bug, not a property of
the running code).  The definitions below embed the evidently intended
ladder - the stray line restored to the indentation of its neighbours,
where it is a pure log statement - in order to show what the repaired
function would return.  The keyword validator call and the LLM interaction
are the two external steps; their outcomes are passed in: KwOutcome.error
is the except-branch of step 1, and the LlmStep cases are the return sites
of the step-2 body (noModel when self.llm has no model and callRaised when
the call or its handling raised, both of which fall through to step 3). -/

namespace ERC

/-- Outcome of subject_validation.validate_subject_keywords: a result triple
or an exception. -/
inductive KwOutcome
  | ok (is_valid : Bool) (confidence : ℚ) (reason : String)
  | error
deriving DecidableEq

/-- Outcome of the LLM interaction of step 2, one case per return site. -/
inductive LlmStep
  | noModel
  | callRaised
  | jsonParsed (score : ℚ) (isRelevant : Bool) (explanation : String)
  | scoreExtracted (n : ℕ)
  | textRelevant
  | textIrrelevant
  | textUnclear
deriving DecidableEq

/-- The dict returned by _enhanced_relevance_check (comments keep their
static text; interpolated numbers are carried by the score field). -/
structure Outcome where
  status : String
  relevance_score : ℚ
  comments : String
  validation_method : String
deriving DecidableEq

/-- Step 3 (lines 752-765): the fixed default of 45%, compared against the
active minimum threshold. -/
def step3 (minThreshold : ℚ) (subject : String) : Outcome :=
  { status := if (45:ℚ) ≥ minThreshold then "PASSED" else "FAILED"
    relevance_score := 45
    comments := "Default assessment: Using fixed 45% relevance for " ++ subject ++
      " after all checks failed"
    validation_method := "default_fallback" }

/-- Step 2 (lines 640-750): the LLM validation block; the noModel and
callRaised outcomes fall through to step 3. -/
def step2 (mode : String) (minThreshold : ℚ) (enableLlm : Bool) (subject : String)
    (llm : LlmStep) : Outcome :=
  if enableLlm = true ∨ mode = "llm_only" ∨ mode = "enhanced" then
    match llm with
    | .noModel => step3 minThreshold subject
    | .callRaised => step3 minThreshold subject
    | .jsonParsed score isRel expl =>
      { status := if isRel = true ∧ max 0 (min 100 score) ≥ minThreshold
          then "PASSED" else "FAILED"
        relevance_score := max 0 (min 100 score)
        comments := expl
        validation_method := "llm_sample_based" }
    | .scoreExtracted n =>
      { status := if min 100 (max 0 (n:ℚ)) ≥ minThreshold then "PASSED" else "FAILED"
        relevance_score := min 100 (max 0 (n:ℚ))
        comments := "LLM assessment extracted from response"
        validation_method := "llm_score_extraction" }
    | .textRelevant =>
      { status := if max (minThreshold + 10) 60 ≥ minThreshold then "PASSED" else "FAILED"
        relevance_score := max (minThreshold + 10) 60
        comments := "LLM assessment based on response analysis"
        validation_method := "llm_response_analysis" }
    | .textIrrelevant =>
      { status := if max (minThreshold - 10) 25 ≥ minThreshold then "PASSED" else "FAILED"
        relevance_score := max (minThreshold - 10) 25
        comments := "LLM assessment based on response analysis"
        validation_method := "llm_response_analysis" }
    | .textUnclear =>
      { status := if minThreshold ≥ minThreshold then "PASSED" else "FAILED"
        relevance_score := minThreshold
        comments := "LLM assessment based on response analysis"
        validation_method := "llm_response_analysis" }
  else step3 minThreshold subject

/-- _enhanced_relevance_check: step 1 (lines 594-637), falling through to
steps 2 and 3. -/
def enhancedRelevanceCheck (mode : String) (minThreshold : ℚ) (enableLlm : Bool)
    (subject : String) (kw : KwOutcome) (llm : LlmStep) : Outcome :=
  if mode ≠ "llm_only" then
    match kw with
    | .ok v c r =>
      if v = true ∧ c > 50 then
        { status := if c ≥ minThreshold then "PASSED" else "FAILED"
          relevance_score := c, comments := r, validation_method := "keyword_based" }
      else if v = false ∧ c ≤ 20 then
        { status := "FAILED", relevance_score := c, comments := r
          validation_method := "keyword_mismatch" }
      else if mode = "keyword_only" then
        { status := if c ≥ minThreshold then "PASSED" else "FAILED"
          relevance_score := c, comments := r, validation_method := "keyword_only" }
      else step2 mode minThreshold enableLlm subject llm
    | .error =>
      if mode = "keyword_only" then
        { status := "FAILED", relevance_score := minThreshold - 5
          comments := "Keyword validation failed", validation_method := "keyword_error" }
      else step2 mode minThreshold enableLlm subject llm
  else step2 mode minThreshold enableLlm subject llm

end ERC

/-- Claim C5 (code bug): the claimed no-exception default path cannot hold
of the source as written - the module raises IndentationError at import
(unexpected indent at line 599), so the relevance check always fails with
an exception before any fallback can run.  This theorem records the
behaviour of the intended, repaired ladder embedded above: when keyword
validation is inconclusive (neither early return fires) or raised, and the
LLM is unavailable or its call failed, it returns the step-3 default -
relevance score exactly 45, validation method "default_fallback", and
PASSED exactly when 45 reaches the active minimum threshold. -/
theorem C5_default_fallback (mode : String) (minThreshold : ℚ) (enableLlm : Bool)
    (subject : String) (kw : ERC.KwOutcome) (llm : ERC.LlmStep)
    (hmode : mode ≠ "keyword_only")
    (hkw : kw = ERC.KwOutcome.error ∨ ∃ v c r, kw = ERC.KwOutcome.ok v c r ∧
      ¬(v = true ∧ c > 50) ∧ ¬(v = false ∧ c ≤ 20))
    (hllm : llm = ERC.LlmStep.noModel ∨ llm = ERC.LlmStep.callRaised) :
    (ERC.enhancedRelevanceCheck mode minThreshold enableLlm subject kw llm).relevance_score = 45 ∧
    (ERC.enhancedRelevanceCheck mode minThreshold enableLlm subject kw llm).validation_method =
      "default_fallback" ∧
    ((ERC.enhancedRelevanceCheck mode minThreshold enableLlm subject kw llm).status = "PASSED" ↔
      (45:ℚ) ≥ minThreshold) := by
  have hstep2 : ERC.step2 mode minThreshold enableLlm subject llm =
      ERC.step3 minThreshold subject := by
    unfold ERC.step2
    rcases hllm with h | h <;> rw [h] <;> split_ifs <;> rfl
  have hstep3 : (ERC.step3 minThreshold subject).relevance_score = 45 ∧
      (ERC.step3 minThreshold subject).validation_method = "default_fallback" ∧
      ((ERC.step3 minThreshold subject).status = "PASSED" ↔ (45:ℚ) ≥ minThreshold) := by
    unfold ERC.step3
    refine ⟨rfl, rfl, ?_⟩
    split_ifs with h
    · exact ⟨fun _ => h, fun _ => rfl⟩
    · exact ⟨fun hc => absurd hc (by simp), fun hc => absurd hc h⟩
  have hmain : ERC.enhancedRelevanceCheck mode minThreshold enableLlm subject kw llm =
      ERC.step3 minThreshold subject := by
    unfold ERC.enhancedRelevanceCheck
    by_cases hlo : mode = "llm_only"
    · rw [if_neg (by simpa using hlo)]
      exact hstep2
    · rw [if_pos hlo]
      rcases hkw with h | ⟨v, c, r, h, h1, h2⟩
      · rw [h]
        dsimp only
        rw [if_neg hmode]
        exact hstep2
      · rw [h]
        dsimp only
        rw [if_neg h1, if_neg h2, if_neg hmode]
        exact hstep2
  rw [hmain]
  exact hstep3

/-- Witness for C5: the repaired ladder at enhanced mode, threshold 35,
keyword validation raised, LLM model unavailable. -/
theorem C5_witness :
    (ERC.enhancedRelevanceCheck "enhanced" 35 true "physics"
      ERC.KwOutcome.error ERC.LlmStep.noModel).relevance_score = 45 ∧
    (ERC.enhancedRelevanceCheck "enhanced" 35 true "physics"
      ERC.KwOutcome.error ERC.LlmStep.noModel).validation_method = "default_fallback" ∧
    ((ERC.enhancedRelevanceCheck "enhanced" 35 true "physics"
      ERC.KwOutcome.error ERC.LlmStep.noModel).status = "PASSED" ↔ (45:ℚ) ≥ 35) :=
  C5_default_fallback "enhanced" 35 true "physics" ERC.KwOutcome.error ERC.LlmStep.noModel
    (by decide) (Or.inl rfl) (Or.inl rfl)

/- Ambient configuration: the fields of data/info.json read by the scoring
modules.  A missing file is the none case; every reader falls back to its
Python default then. -/

/-- The data/info.json fields consumed by the detectors. -/
structure InfoJson where
  subject_name : String
  file_name : String
  strict_ai_detection : Bool
  use_top_features : Bool

namespace Py

/-- Generic non-overlapping scanner counting the matches of a deterministic
matcher m (m t gives the length of the match starting at t, if any). -/
def countMatcher (m : List Char → Option ℕ) (skip : ℕ) : List Char → ℕ
  | [] => 0
  | c :: rest =>
    if 0 < skip then countMatcher m (skip - 1) rest
    else
      match m (c :: rest) with
      | some k => 1 + countMatcher m (k - 1) rest
      | none => countMatcher m 0 rest

/-- Scanner for replaceAll (Python str.replace, all occurrences). -/
def replaceAllGo (pat rep : List Char) (skip : ℕ) : List Char → List Char
  | [] => []
  | c :: rest =>
    if 0 < skip then replaceAllGo pat rep (skip - 1) rest
    else if pat.isPrefixOf (c :: rest) then
      rep ++ replaceAllGo pat rep (pat.length - 1) rest
    else c :: replaceAllGo pat rep 0 rest

/-- Python str.replace(pat, rep): replace every non-overlapping occurrence
(the pipeline never replaces an empty pattern). -/
def replaceAll (pat rep t : List Char) : List Char :=
  if pat = [] then t else replaceAllGo pat rep 0 t

/-- Python " ".join(parts). -/
def joinWithSpace (parts : List (List Char)) : List Char :=
  (parts.intersperse [' ']).join

end Py

/- ===== src/AI _analysis/ai_pattern_detector.py =====
Enhanced AI content detection: explicit and academic phrase pattern counts,
five statistical feature scores (real-valued: two of them divide by
math.sqrt of a variance), the subject/content mismatch check against
data/info.json, and the weighted AI score with threshold detection. -/

namespace AIPD

/-- AI_PATTERNS: each entry is the list of literal alternatives of one regex
(all are literals except "my training cut[- ]?off"). -/
def AI_PATTERNS : List (List String) := [
  ["as an AI"],
  ["as an artificial intelligence"],
  ["I don\x27t have personal"],
  ["I don\x27t have the ability to"],
  ["I don\x27t have access to"],
  ["I cannot access"],
  ["my training data"],
  ["my knowledge cutoff"],
  ["my last update"],
  ["As of my last training"],
  ["my training cut-off", "my training cut off", "my training cutoff"],
  ["As a language model"],
  ["Based on my training"],
  ["As of my last update"],
  ["I don\x27t have subjective experiences"],
  ["I don\x27t have the capability to"],
  ["I don\x27t have real-time"],
  ["as of my training data"],
  ["I don\x27t have opinions"],
  ["I don\x27t have beliefs"],
  ["I can provide information"],
  ["I\x27m not able to"],
  ["I\x27m just a"],
  ["I\x27m an AI"]]

/-- AI_REPETITIVE_STRUCTURES. -/
def AI_REPETITIVE_STRUCTURES : List String := [
  "In conclusion,",
  "To summarize,",
  "In summary,",
  "It\x27s important to note that",
  "It\x27s worth mentioning that",
  "It\x27s essential to understand that",
  "Let me explain",
  "Let\x27s explore",
  "Let\x27s discuss"]

/-- ACADEMIC_AI_PHRASES. -/
def ACADEMIC_AI_PHRASES : List String := [
  "this study aims to",
  "the results indicate that",
  "further research is needed",
  "it is widely accepted that",
  "according to recent studies",
  "the data suggests that",
  "in this paper, we will",
  "we propose that",
  "it can be concluded that",
  "this research demonstrates",
  "the findings reveal that",
  "evidence suggests that",
  "this highlights the importance of",
  "it is important to consider",
  "one possible explanation is",
  "this raises the question of",
  "another study found that",
  "these results are consistent with",
  "this is supported by",
  "the literature suggests that",
  "previous research has shown"]

/-- The findall matches of one AI_PATTERNS entry. -/
def matchesOf (alts : List String) (t : List Char) : List (List Char) :=
  Py.findAltCI (alts.map String.data) t

/-- Total number of explicit AI pattern matches (pattern_count). -/
def patternCount (t : String) : ℕ :=
  (AI_PATTERNS.map (fun alts => (matchesOf alts t.data).length)).sum

/-- Total number of academic AI phrase matches (academic_pattern_count). -/
def academicCount (t : String) : ℕ :=
  (ACADEMIC_AI_PHRASES.map (fun p => (Py.findMatchesCI p.data t.data).length)).sum

/-- results["patterns_detected"]: the explicit matches in pattern order, then
per academic phrase the first two matches prefixed with "Academic AI: ". -/
def patternsDetected (t : String) : List String :=
  (AI_PATTERNS.map (fun alts => (matchesOf alts t.data).map (fun m => String.mk m))).join ++
  (ACADEMIC_AI_PHRASES.map (fun p =>
    ((Py.findMatchesCI p.data t.data).take 2).map
      (fun m => "Academic AI: " ++ String.mk m))).join

/-- analyze_paragraph_consistency(text): coefficient of variation of the
stripped paragraph lengths, mapped so that uniform paragraphs score high. -/
noncomputable def analyzeParagraphConsistency (text : String) : ℝ :=
  if (Py.reSplitBlank text.data).length ≤ 2 then 0
  else
    let lengths := ((Py.reSplitBlank text.data).map
      (fun p => (Py.stripWs p).length)).filter (fun l => 0 < l)
    if lengths = [] then 0
    else
      max 0 (min 100 (100 * (1 -
        (if 0 < APA.avgOf lengths then
          Real.sqrt (APA.varOf lengths) / ((APA.avgOf lengths : ℚ) : ℝ)
        else 0))))

/-- The sentence list shared by analyze_sentence_variety: split on runs of
sentence terminators, strip, keep the fragments longer than five characters. -/
def sentencesOf (text : String) : List (List Char) :=
  ((Py.splitRuns (fun c => c == '.' || c == '!' || c == '?') text.data).map
    Py.stripWs).filter (fun s => 5 < s.length)

/-- analyze_sentence_variety(text): coefficient of variation of sentence
character lengths, mapped so that varied sentences score high. -/
noncomputable def analyzeSentenceVariety (text : String) : ℝ :=
  if (sentencesOf text).length < 3 then 0
  else
    let lengths := (sentencesOf text).map List.length
    max 0 (min 100 (100 *
      (if 0 < APA.avgOf lengths then
        Real.sqrt (APA.varOf lengths) / ((APA.avgOf lengths : ℚ) : ℝ)
      else 0)))

/-- analyze_lexical_diversity(text): type/token ratio over the alphabetic
word tokens of the lowered text, scaled to 0-100. -/
noncomputable def analyzeLexicalDiversity (text : String) : ℝ :=
  if Py.alphaTokens (Py.lower text.data) = [] then 0
  else
    max 0 (min 100 (100 *
      (((Py.alphaTokens (Py.lower text.data)).dedup.length : ℝ) /
        (Py.alphaTokens (Py.lower text.data)).length)))

/-- The repetition_count of analyze_repetitive_patterns. -/
def repetitionCount (t : String) : ℕ :=
  (AI_REPETITIVE_STRUCTURES.map (fun p => (Py.findMatchesCI p.data t.data).length)).sum

/-- analyze_repetitive_patterns(text): repetitive AI structures per hundred
words, scaled by ten and clamped. -/
noncomputable def analyzeRepetitivePatterns (text : String) : ℝ :=
  if (Py.splitWs text.data).length = 0 then 0
  else
    max 0 (min 100 (((repetitionCount text : ℝ) /
      (((Py.splitWs text.data).length : ℝ) / 100)) * 10))

/-- Matcher for the numbered-list regex \n\s*\d+\.\s+[A-Z] (the character
classes of its steps are disjoint, so the greedy match is deterministic). -/
def numberedMatcher (t : List Char) : Option ℕ :=
  match t with
  | '\n' :: r =>
    let w := r.takeWhile Py.isWs
    let ds := (r.drop w.length).takeWhile Char.isDigit
    if ds = [] then none
    else
      match r.drop (w.length + ds.length) with
      | '.' :: r2 =>
        let w2 := r2.takeWhile Py.isWs
        if w2 = [] then none
        else
          match r2.drop w2.length with
          | u :: _ =>
            if 'A' ≤ u ∧ u ≤ 'Z' then
              some (1 + w.length + ds.length + 1 + w2.length + 1)
            else none
          | [] => none
      | _ => none
  | _ => none

/-- Matcher for the Q&A regex (?:question:|q:)|(?:\?)\s*\n+\s*(?:answer:|a:)
with IGNORECASE: the first alternative is a literal pair; the second needs a
question mark, a whitespace run containing a newline, then answer:/a:. -/
def qaMatcher (t : List Char) : Option ℕ :=
  if (Py.lower "question:".data).isPrefixOf (Py.lower t) then some 9
  else if (Py.lower "q:".data).isPrefixOf (Py.lower t) then some 2
  else
    match t with
    | '?' :: r =>
      let w := r.takeWhile Py.isWs
      if w.contains '\n' then
        if (Py.lower "answer:".data).isPrefixOf (Py.lower (r.drop w.length)) then
          some (1 + w.length + 7)
        else if (Py.lower "a:".data).isPrefixOf (Py.lower (r.drop w.length)) then
          some (1 + w.length + 2)
        else none
      else none
    | _ => none

/-- Second-alternative tail check of the heading regex, at split point j of
the [^.!?]+ body: \n\s*[-=]+\s*\n (the final \s*\n consumes up to the last
newline of the whitespace run). -/
def headingAlt2Check (r2 : List Char) (j : ℕ) : Option ℕ :=
  match r2.drop j with
  | '\n' :: rest3 =>
    let w3 := rest3.takeWhile Py.isWs
    let dashes := (rest3.drop w3.length).takeWhile (fun c => c == '-' || c == '=')
    if dashes = [] then none
    else
      let w4 := ((rest3.drop w3.length).drop dashes.length).takeWhile Py.isWs
      if w4.contains '\n' then
        some (j + 1 + w3.length + dashes.length +
          (w4.length - 1 - w4.reverse.findIdx (fun c => c == '\n')) + 1)
      else none
  | _ => none

/-- Matcher for the heading regex
\n\s*#+\s+[A-Z] | \n\s*[A-Z][^.!?]+\n\s*[-=]+\s*\n : the first alternative is
preferred; in the second the greedy [^.!?]+ body backtracks to the largest
split point whose tail matches. -/
def headingMatcher (t : List Char) : Option ℕ :=
  match t with
  | '\n' :: r =>
    let w := r.takeWhile Py.isWs
    let afterW := r.drop w.length
    let hs := afterW.takeWhile (fun c => c == '#')
    let alt1 : Option ℕ :=
      if hs ≠ [] then
        let w2 := (afterW.drop hs.length).takeWhile Py.isWs
        if w2 ≠ [] then
          match (afterW.drop hs.length).drop w2.length with
          | u :: _ =>
            if 'A' ≤ u ∧ u ≤ 'Z' then some (1 + w.length + hs.length + w2.length + 1)
            else none
          | [] => none
        else none
      else none
    match alt1 with
    | some k => some k
    | none =>
      match afterW with
      | u :: r2 =>
        if 'A' ≤ u ∧ u ≤ 'Z' then
          match ((List.range (r2.takeWhile (fun c =>
              !(c == '.' || c == '!' || c == '?'))).length).filter (fun j =>
                0 < j && (headingAlt2Check r2 j).isSome)).getLast? with
          | some j =>
            match headingAlt2Check r2 j with
            | some len2 => some (1 + w.length + 1 + len2)
            | none => none
          | none => none
        else none
      | [] => none
  | _ => none

/-- The three structural counts of analyze_structural_patterns. -/
def numberedCount (t : String) : ℕ := Py.countMatcher numberedMatcher 0 t.data

/-- Number of Q&A format matches. -/
def qaCount (t : String) : ℕ := Py.countMatcher qaMatcher 0 t.data

/-- Number of markdown-style heading matches. -/
def headingCount (t : String) : ℕ := Py.countMatcher headingMatcher 0 t.data

/-- analyze_structural_patterns(text): 15 points for three or more numbered
points, 10 for a Q&A format, 15 for three or more headings. -/
def analyzeStructuralPatterns (text : String) : ℝ :=
  (if 3 ≤ numberedCount text then (15:ℝ) else 0) +
  (if 0 < qaCount text then 10 else 0) +
  (if 3 ≤ headingCount text then 15 else 0)

end AIPD

/-- C3 witness: concrete decision with a fired subject mismatch; the status
is FAILED and the primary reason is the mismatch reason. -/
theorem C3_witness :
    MainDec.status ⟨"physics", true, "physics", "history", "PASSED", 80, 10, 10,
        false, false, 0, false⟩ = "FAILED" ∧
      MainDec.primaryReason ⟨"physics", true, "physics", "history", "PASSED", 80, 10, 10,
        false, false, 0, false⟩ =
        some (MainDec.Reason.subjectMismatch "physics" "history") :=
  ((C3_decision_order.1 ⟨"physics", true, "physics", "history", "PASSED", 80, 10, 10,
      false, false, 0, false⟩).2.1)
    (MainDec.Reason.subjectMismatch "physics" "history") [] (by decide)

namespace AIPD

/-- The subject keyword table of detect_subject_content_mismatch (note: it
differs from the validator table; the "DNA" entry is uppercase while the text
is lowered, so it can never match — kept as in the source). -/
def subjectTable : List (String × List String) := [
  ("history", ["history", "historical", "century", "civilization", "ancient",
    "medieval", "empire", "dynasty", "revolution", "war", "monarchy"]),
  ("physics", ["physics", "quantum", "mechanics", "relativity", "particle",
    "wave", "energy", "force", "mass", "velocity", "electromagnetic"]),
  ("mathematics", ["mathematics", "math", "algebra", "geometry", "calculus",
    "theorem", "function", "equation", "polynomial", "matrix", "vector"]),
  ("biology", ["biology", "cell", "organism", "evolution", "gene", "protein",
    "DNA", "species", "ecosystem", "photosynthesis"]),
  ("computer science", ["algorithm", "programming", "software", "database",
    "network", "computational", "code", "internet", "data structure"])]

/-- Result of detect_subject_content_mismatch. -/
structure MismatchResult where
  mismatch_detected : Bool
  claimed_subject : String
  confidence : ℕ
deriving DecidableEq

/-- Keyword hit counts per table subject, on the lowered text. -/
def subjectMatches (textL : List Char) : List (String × ℕ) :=
  subjectTable.map (fun e =>
    (e.1, (e.2.filter (fun kw => Py.containsSub kw.data textL)).length))

/-- detect_subject_content_mismatch(text, info): mismatch iff the claimed
subject relates (by substring either way) to none of the subjects with hits
and the best hit count is at least 5; confidence is min(100, top*10). -/
def detectSubjectContentMismatch (info : Option InfoJson) (text : String) :
    MismatchResult :=
  match info with
  | none => ⟨false, "", 0⟩
  | some i =>
    let claimed := Py.lower i.subject_name.data
    if claimed = [] then ⟨false, String.mk claimed, 0⟩
    else
      let present := (subjectMatches (Py.lower text.data)).filter (fun m => 0 < m.2)
      if present = [] then ⟨false, String.mk claimed, 0⟩
      else
        let top := (present.map (fun m => m.2)).foldl max 0
        let claimedFound := present.any (fun m =>
          Py.containsSub claimed m.1.data || Py.containsSub m.1.data claimed)
        if ¬ claimedFound = true ∧ 5 ≤ top then
          ⟨true, String.mk claimed, min 100 (top * 10)⟩
        else ⟨false, String.mk claimed, 0⟩

/-- strict_ai_detection read from info.json (False when the file is absent). -/
def strictOf (info : Option InfoJson) : Bool :=
  match info with
  | some i => i.strict_ai_detection
  | none => false

/-- Explicit-pattern bonus: min(20, pattern_count * 5) when any hit. -/
def eBonus (pc : ℕ) : ℝ := if 0 < pc then min 20 ((pc : ℝ) * 5) else 0

/-- Academic-phrase bonus: min(15, academic_pattern_count * 2.5) when any hit. -/
def aBonus (ac : ℕ) : ℝ := if 0 < ac then min 15 ((ac : ℝ) * 2.5) else 0

/-- Subject-mismatch bonus: min(30, confidence * 0.5) when mismatch fired. -/
def mBonus (mm : Bool) (conf : ℕ) : ℝ := if mm then min 30 ((conf : ℝ) * 0.5) else 0

/-- The weighted AI score of detect_ai_content before the cap at 100:
each feature weighted 0.15 (variety and diversity inverted), plus the three
bonuses. -/
def aiScoreOf (para sv ld rp ss : ℝ) (pc ac : ℕ) (mm : Bool) (mconf : ℕ) : ℝ :=
  para * 0.15 + (100 - sv) * 0.15 + (100 - ld) * 0.15 + rp * 0.15 + ss * 0.15 +
  eBonus pc + aBonus ac + mBonus mm mconf

/-- is_academic_paper: "introduction" present together with one of abstract /
conclusion / references. -/
def isAcademic (text : String) : Bool :=
  Py.containsSub "introduction".data (Py.lower text.data) &&
  (Py.containsSub "abstract".data (Py.lower text.data) ||
   Py.containsSub "conclusion".data (Py.lower text.data) ||
   Py.containsSub "references".data (Py.lower text.data))

/-- The detection threshold: 30/35 in strict mode, 60/65 otherwise (the lower
value for academic papers). -/
def thresholdOf (strict academic : Bool) : ℝ :=
  if strict then (if academic then 30 else 35) else (if academic then 60 else 65)

/-- The result record of detect_ai_content. -/
structure DetectResult where
  is_ai_generated : Prop
  ai_confidence : ℝ
  patterns_detected : List String
  paragraph_consistency : ℝ
  sentence_variety : ℝ
  lexical_diversity : ℝ
  repetitive_patterns : ℝ
  structural_patterns : ℝ
  subject_mismatch : Bool

/-- detect_ai_content(text, info): the five feature scores, the capped
weighted AI score, and is_ai_generated = score above threshold OR subject
mismatch. -/
noncomputable def detectAiContent (info : Option InfoJson) (text : String) :
    DetectResult :=
  { is_ai_generated :=
      min 100 (aiScoreOf (analyzeParagraphConsistency text) (analyzeSentenceVariety text)
        (analyzeLexicalDiversity text) (analyzeRepetitivePatterns text)
        (analyzeStructuralPatterns text) (patternCount text) (academicCount text)
        (detectSubjectContentMismatch info text).mismatch_detected
        (detectSubjectContentMismatch info text).confidence) >
        thresholdOf (strictOf info) (isAcademic text) ∨
      (detectSubjectContentMismatch info text).mismatch_detected = true
    ai_confidence :=
      min 100 (aiScoreOf (analyzeParagraphConsistency text) (analyzeSentenceVariety text)
        (analyzeLexicalDiversity text) (analyzeRepetitivePatterns text)
        (analyzeStructuralPatterns text) (patternCount text) (academicCount text)
        (detectSubjectContentMismatch info text).mismatch_detected
        (detectSubjectContentMismatch info text).confidence)
    patterns_detected := patternsDetected text
    paragraph_consistency := analyzeParagraphConsistency text
    sentence_variety := analyzeSentenceVariety text
    lexical_diversity := analyzeLexicalDiversity text
    repetitive_patterns := analyzeRepetitivePatterns text
    structural_patterns := analyzeStructuralPatterns text
    subject_mismatch := (detectSubjectContentMismatch info text).mismatch_detected }

end AIPD

/- ===== src/Assignment_analysis_engine/enhanced_plagiarism_detector.py =====
Combines the AI pattern detection above with n-gram / statistical similarity
against reference sources, emoji detection, and its own subject-mismatch
check; reference sources are modelled by the list of their content strings
(refs = none models reference_sources=None, and an empty list is falsy too). -/

namespace EPD

open Classical

/-- get_ngrams(text, 3): space-joined triples of consecutive alphanumeric
word tokens of the lowered text. -/
def getNgrams (text : String) : List (List Char) :=
  (List.range ((Py.alnumTokens (Py.lower text.data)).length - 2)).map
    (fun i => Py.joinWithSpace (((Py.alnumTokens (Py.lower text.data)).drop i).take 3))

/-- calculate_ngram_similarity: Jaccard similarity of the n-gram sets, times
a hundred. -/
noncomputable def calcNgramSimilarityE (t1 t2 : String) : ℝ :=
  if getNgrams t1 = [] ∨ getNgrams t2 = [] then 0
  else
    ((((getNgrams t1).dedup.filter (fun g => (getNgrams t2).dedup.contains g)).length : ℝ) /
      (((getNgrams t1).dedup.length + (getNgrams t2).dedup.length -
        ((getNgrams t1).dedup.filter (fun g => (getNgrams t2).dedup.contains g)).length : ℕ) : ℝ)) * 100

/-- get_sentence_stats, first component: average sentence character length
(0 when no sentence survives the filter). -/
def sentAvg (text : String) : ℚ :=
  if AIPD.sentencesOf text = [] then 0
  else APA.avgOf ((AIPD.sentencesOf text).map List.length)

/-- get_sentence_stats, second component: standard deviation of the sentence
lengths (0 with fewer than two sentences). -/
noncomputable def sentStd (text : String) : ℝ :=
  if AIPD.sentencesOf text = [] then 0
  else if 1 < (AIPD.sentencesOf text).length then
    Real.sqrt (APA.varOf ((AIPD.sentencesOf text).map List.length))
  else 0

/-- analyze_statistical_similarity: similarity of the sentence-length
distributions of the two texts, clamped to 0-100. -/
noncomputable def analyzeStatisticalSimilarityE (t1 t2 : String) : ℝ :=
  if sentAvg t1 = 0 ∨ sentAvg t2 = 0 then 0
  else
    max 0 (min 100 (100 * (1 -
      ((|((sentAvg t1 : ℚ) : ℝ) - ((sentAvg t2 : ℚ) : ℝ)| /
          max ((sentAvg t1 : ℚ) : ℝ) ((sentAvg t2 : ℚ) : ℝ)) * 0.5 +
        (if 0 < max (sentStd t1) (sentStd t2) then
          |sentStd t1 - sentStd t2| / max (sentStd t1) (sentStd t2)
        else 1) * 0.5))))

/-- calculate_top_features_score on the five feature scores: the average of
the two largest, written as the maximum of all pairwise sums halved. -/
noncomputable def top2avg (a b c d e : ℝ) : ℝ :=
  (max (max (max (a + b) (a + c)) (max (a + d) (a + e)))
    (max (max (b + c) (b + d)) (max (max (b + e) (c + d)) (max (c + e) (d + e))))) / 2

/-- The use_top_features weighting: the top-features score, boosted by 1.25
(capped at 100) when AI patterns were detected. -/
noncomputable def useTopPct (detected : Prop) (top : ℝ) : ℝ :=
  if detected then min 100 (top * 1.25) else top

/-- The strict-mode weighting, with the floor of 60 once the AI confidence
exceeds 25 or the top-features score exceeds 65. -/
noncomputable def strictPct (conf top ng st : ℝ) : ℝ :=
  if conf > 25 ∨ top > 65 then
    max 60 (conf * 0.5 + top * 0.3 + ng * 0.1 + st * 0.1)
  else conf * 0.5 + top * 0.3 + ng * 0.1 + st * 0.1

/-- The standard weighting: AI confidence weighted 0.4 when AI patterns were
detected, 0.3 otherwise. -/
noncomputable def standardPct (detected : Prop) (conf top ng st : ℝ) : ℝ :=
  if detected then conf * 0.4 + top * 0.3 + ng * 0.15 + st * 0.15
  else conf * 0.3 + top * 0.3 + ng * 0.2 + st * 0.2

/-- Membership in the emoji character class of the compiled emoji_pattern. -/
def isEmojiChar (c : Char) : Bool :=
  (0x1F600 ≤ c.toNat && c.toNat ≤ 0x1F64F) || (0x1F300 ≤ c.toNat && c.toNat ≤ 0x1F5FF) ||
  (0x1F680 ≤ c.toNat && c.toNat ≤ 0x1F6FF) || (0x1F700 ≤ c.toNat && c.toNat ≤ 0x1F77F) ||
  (0x1F780 ≤ c.toNat && c.toNat ≤ 0x1F7FF) || (0x1F800 ≤ c.toNat && c.toNat ≤ 0x1F8FF) ||
  (0x1F900 ≤ c.toNat && c.toNat ≤ 0x1F9FF) || (0x1FA00 ≤ c.toNat && c.toNat ≤ 0x1FA6F) ||
  (0x1FA70 ≤ c.toNat && c.toNat ≤ 0x1FAFF) || (0x2702 ≤ c.toNat && c.toNat ≤ 0x27B0) ||
  (0x24C2 ≤ c.toNat && c.toNat ≤ 0x1F251)

/-- len(emoji_pattern.findall(text)): number of maximal emoji-class runs. -/
def emojiCount (text : String) : ℕ := (Py.runsOf isEmojiChar text.data).length

/-- use_top_features read from info.json (False when the file is absent). -/
def useTopOf (info : Option InfoJson) : Bool :=
  match info with
  | some i => i.use_top_features
  | none => false

/-- The subject-mismatch indicator of detect_enhanced_plagiarism (lines
254-278): the declared subject (when longer than three characters) appears
neither whole nor word-by-word in the lowered text, or the underscore-split
file name (with .pdf/.docx removed, joined by spaces) does not appear. -/
def epdMismatch (info : Option InfoJson) (text : String) : Bool :=
  match info with
  | none => false
  | some i =>
    (if Py.lower i.subject_name.data ≠ [] ∧ 3 < (Py.lower i.subject_name.data).length then
      (!(Py.containsSub (Py.lower i.subject_name.data) (Py.lower text.data)) &&
        !((Py.splitWs (Py.lower i.subject_name.data)).any
          (fun w => Py.containsSub w (Py.lower text.data))))
    else false) ||
    (if Py.lower i.file_name.data ≠ [] ∧ (Py.lower i.file_name.data).contains '_' then
      (if (Py.splitLit ['_'] (Py.lower i.file_name.data)).any (fun p => 4 < p.length) then
        !(Py.containsSub
          (Py.joinWithSpace (Py.splitLit ['_']
            (Py.replaceAll ".docx".data []
              (Py.replaceAll ".pdf".data [] (Py.lower i.file_name.data)))))
          (Py.lower text.data))
      else false)
    else false)

/-- The maximal n-gram similarity against the reference contents. -/
noncomputable def maxNgramOf (text : String) (refsL : List String) : ℝ :=
  (refsL.map (fun r => calcNgramSimilarityE text r)).foldl max 0

/-- The maximal statistical similarity against the reference contents. -/
noncomputable def maxStatOf (text : String) (refsL : List String) : ℝ :=
  (refsL.map (fun r => analyzeStatisticalSimilarityE text r)).foldl max 0

/-- The result dict of detect_enhanced_plagiarism (top_features_score is only
set when reference sources are present; semantic_similarity keeps its initial
0, the loop never updates it). -/
structure EPDResult where
  plagiarism_detected : Prop
  plagiarism_percentage : ℝ
  ai_patterns_detected : Prop
  ai_confidence : ℝ
  semantic_similarity : ℝ
  statistical_similarity : ℝ
  ngram_similarity : ℝ
  emoji_detected : Bool
  emoji_count : ℕ
  top_features_score : Option ℝ
  subject_mismatch : Bool

/-- detect_enhanced_plagiarism(text, reference_sources), with the ambient
info.json passed explicitly and reference dicts modelled by their content
strings. -/
noncomputable def detectEnhancedPlagiarism (info : Option InfoJson)
    (text : String) (refs : Option (List String)) : EPDResult :=
  let ai := AIPD.detectAiContent info text
  let refsL := refs.getD []
  let top := top2avg ai.paragraph_consistency ai.sentence_variety
    ai.lexical_diversity ai.repetitive_patterns ai.structural_patterns
  let pct : ℝ :=
    if refsL ≠ [] then
      max 0 (min 100 (
        if useTopOf info then useTopPct ai.is_ai_generated top
        else if AIPD.strictOf info then
          strictPct ai.ai_confidence top (maxNgramOf text refsL) (maxStatOf text refsL)
        else
          standardPct ai.is_ai_generated ai.ai_confidence top
            (maxNgramOf text refsL) (maxStatOf text refsL)))
    else ai.ai_confidence
  { plagiarism_detected :=
      if AIPD.strictOf info then
        pct > 55 ∨ ai.ai_confidence > 25 ∨ ai.is_ai_generated ∨
          (0 < emojiCount text) ∨ epdMismatch info text = true
      else pct > 60 ∨ ai.is_ai_generated ∨ (0 < emojiCount text)
    plagiarism_percentage := pct
    ai_patterns_detected := ai.is_ai_generated
    ai_confidence := ai.ai_confidence
    semantic_similarity := 0
    statistical_similarity := if refsL ≠ [] then maxStatOf text refsL else 0
    ngram_similarity := if refsL ≠ [] then maxNgramOf text refsL else 0
    emoji_detected := decide (0 < emojiCount text)
    emoji_count := emojiCount text
    top_features_score := if refsL ≠ [] then some top else none
    subject_mismatch := epdMismatch info text }

end EPD

namespace Py

theorem findAltCIGo_singleton (p : List Char) (t : List Char) :
    ∀ skip, findAltCIGo [p] skip t = findMatchesCIGo p skip t := by
  induction t with
  | nil => intro skip; rfl
  | cons c rest ih =>
    intro skip
    simp only [findAltCIGo, findMatchesCIGo]
    by_cases hs : 0 < skip
    · rw [if_pos hs, if_pos hs]
      exact ih _
    · rw [if_neg hs, if_neg hs]
      cases hp : (lower p).isPrefixOf (lower (c :: rest)) with
      | true =>
        simp only [List.find?, hp, if_true]
        exact congrArg _ (ih _)
      | false =>
        simp only [List.find?, hp, List.find?_nil, if_false]
        exact ih _

end Py

namespace AIPD

/-- The Python clamp max(0, min(100, x)) lands in [0, 100] whatever x is. -/
theorem clampMem (x : ℝ) : 0 ≤ max 0 (min 100 x) ∧ max 0 (min 100 x) ≤ 100 :=
  ⟨le_max_left _ _, max_le (by norm_num) (min_le_left _ _)⟩

theorem para_eq_zero_of_le_two (t : String)
    (h : (Py.reSplitBlank t.data).length ≤ 2) :
    analyzeParagraphConsistency t = 0 := by
  simp only [analyzeParagraphConsistency]
  rw [if_pos h]

theorem sv_eq_zero_of_lt_three (t : String) (h : (sentencesOf t).length < 3) :
    analyzeSentenceVariety t = 0 := by
  simp only [analyzeSentenceVariety]
  rw [if_pos h]

theorem ld_eq_ratio (t : String) (a b : ℕ)
    (ha : (Py.alphaTokens (Py.lower t.data)).dedup.length = a)
    (hb : (Py.alphaTokens (Py.lower t.data)).length = b)
    (h0 : 0 < b) (hab : a ≤ b) :
    analyzeLexicalDiversity t = 100 * ((a : ℝ) / b) := by
  simp only [analyzeLexicalDiversity]
  rw [if_neg (by
    intro hc
    rw [hc] at hb
    simp only [List.length_nil] at hb
    omega)]
  rw [ha, hb]
  rw [min_eq_right, max_eq_right]
  · positivity
  · have hb0 : (0:ℝ) < b := by exact_mod_cast h0
    have : (a:ℝ) / b ≤ 1 := by
      rw [div_le_one hb0]
      exact_mod_cast hab
    nlinarith

theorem rp_eq_zero_of_count_zero (t : String) (h : repetitionCount t = 0)
    (hw : ¬ (Py.splitWs t.data).length = 0) :
    analyzeRepetitivePatterns t = 0 := by
  simp only [analyzeRepetitivePatterns]
  rw [if_neg hw, h]
  rw [Nat.cast_zero, zero_div, zero_mul]
  rw [min_eq_right (by norm_num), max_eq_right (by norm_num)]

theorem ss_eq_zero (t : String) (h1 : numberedCount t < 3) (h2 : qaCount t = 0)
    (h3 : headingCount t < 3) : analyzeStructuralPatterns t = 0 := by
  simp only [analyzeStructuralPatterns]
  rw [if_neg (by omega), if_neg (by omega), if_neg (by omega)]
  norm_num

end AIPD

/- ===== Claim C4: the explicit-phrase scenario ===== -/

/-- The literal phrase of the claim. -/
def c4Text : String := "As an AI language model, I don\x27t have personal opinions"

/-- The tail of c4Text after its leading "As an AI". -/
def c4Rest : String := " language model, I don\x27t have personal opinions"

/-- C4: counterexample.  The text consisting of exactly the claimed phrase
produces explicit pattern hits (patterns_detected is non-empty), yet
is_ai_generated is false: the AI score is 25 (feature base 15 plus pattern
bonus 10), below the standard threshold 65, and detection has no
pattern-hit tripwire - it only tests the score and the subject mismatch. -/
theorem C4_counterexample :
    AIPD.patternsDetected c4Text ≠ [] ∧
      0 < AIPD.patternCount c4Text ∧
      ¬ (AIPD.detectAiContent none c4Text).is_ai_generated := by
  refine ⟨by decide, by decide, ?_⟩
  have hconf : (AIPD.detectAiContent none c4Text).ai_confidence = 25 := by
    simp only [AIPD.detectAiContent]
    rw [AIPD.para_eq_zero_of_le_two c4Text (by decide),
        AIPD.sv_eq_zero_of_lt_three c4Text (by decide),
        AIPD.ld_eq_ratio c4Text 11 11 (by decide) (by decide) (by decide) (by decide),
        AIPD.rp_eq_zero_of_count_zero c4Text (by decide) (by decide),
        AIPD.ss_eq_zero c4Text (by decide) (by decide) (by decide),
        show AIPD.patternCount c4Text = 2 from by decide,
        show AIPD.academicCount c4Text = 0 from by decide]
    simp only [AIPD.detectSubjectContentMismatch]
    simp only [AIPD.aiScoreOf, AIPD.eBonus, AIPD.aBonus, AIPD.mBonus]
    rw [if_pos (by norm_num : 0 < 2), if_neg (by norm_num : ¬ 0 < 0),
        if_neg (Bool.false_ne_true)]
    rw [show ((2:ℕ):ℝ) * 5 = 10 by norm_num,
        min_eq_right (by norm_num : (10:ℝ) ≤ 20)]
    rw [min_eq_right (by norm_num)]
    norm_num
  simp only [AIPD.detectAiContent] at hconf ⊢
  intro hAI
  rcases hAI with hscore | hmm
  · rw [hconf] at hscore
    rw [show AIPD.strictOf none = false from rfl,
        show AIPD.isAcademic c4Text = false from by decide] at hscore
    simp only [AIPD.thresholdOf, Bool.false_eq_true, if_false] at hscore
    norm_num at hscore
  · exact absurd hmm (by decide)

/-- C4 (amended): any text containing the claimed literal phrase yields a
positive explicit-pattern count and a non-empty patterns_detected list, and
is_ai_generated does hold whenever the AI confidence additionally exceeds
the active threshold - but the hits alone are not a detection tripwire. -/
theorem C4_explicit_phrase (t : String) (info : Option InfoJson)
    (h : Py.containsSub (Py.lower c4Text.data) (Py.lower t.data) = true) :
    0 < AIPD.patternCount t ∧
      (AIPD.detectAiContent info t).patterns_detected ≠ [] ∧
      ((AIPD.detectAiContent info t).ai_confidence >
          AIPD.thresholdOf (AIPD.strictOf info) (AIPD.isAcademic t) →
        (AIPD.detectAiContent info t).is_ai_generated) := by
  have hsplit : Py.lower c4Text.data =
      Py.lower "as an AI".data ++ Py.lower c4Rest.data := by decide
  have hsub : Py.containsSub (Py.lower "as an AI".data) (Py.lower t.data) = true := by
    obtain ⟨u, v, huv⟩ := (Py.containsSub_exists _ _).mp h
    refine (Py.containsSub_exists _ _).mpr ⟨u, Py.lower c4Rest.data ++ v, ?_⟩
    rw [huv, hsplit]
    simp [List.append_assoc]
  have hne : Py.findAltCI ["as an AI".data] t.data ≠ [] := by
    simp only [Py.findAltCI]
    rw [Py.findAltCIGo_singleton]
    exact Py.findMatchesCIGo_ne_nil t.data (by decide) hsub
  refine ⟨?_, ?_, ?_⟩
  · simp only [AIPD.patternCount, AIPD.AI_PATTERNS, List.map, List.sum_cons]
    have h1 : 0 < (AIPD.matchesOf ["as an AI"] t.data).length := by
      apply List.length_pos.mpr
      simpa [AIPD.matchesOf] using hne
    omega
  · simp only [AIPD.detectAiContent, AIPD.patternsDetected]
    have hne2 : AIPD.matchesOf ["as an AI"] t.data ≠ [] := by
      simpa [AIPD.matchesOf] using hne
    obtain ⟨m, hm⟩ := List.exists_mem_of_ne_nil _ hne2
    apply List.ne_nil_of_mem (a := String.mk m)
    apply List.mem_append_left
    refine List.mem_join.mpr ⟨(AIPD.matchesOf ["as an AI"] t.data).map
      (fun m => String.mk m), ?_, List.mem_map_of_mem _ hm⟩
    exact List.mem_map_of_mem _ (by simp [AIPD.AI_PATTERNS])
  · intro hconf
    simp only [AIPD.detectAiContent] at hconf ⊢
    exact Or.inl hconf

/-- C4 witness: the amended theorem applied to the phrase itself. -/
theorem C4_witness :
    0 < AIPD.patternCount c4Text ∧
      (AIPD.detectAiContent none c4Text).patterns_detected ≠ [] ∧
      ((AIPD.detectAiContent none c4Text).ai_confidence >
          AIPD.thresholdOf (AIPD.strictOf none) (AIPD.isAcademic c4Text) →
        (AIPD.detectAiContent none c4Text).is_ai_generated) :=
  C4_explicit_phrase c4Text none (by decide)

/- ===== Claim C2: subject-mismatch dominance ===== -/

/-- A text on no recognised subject. -/
def tC2 : String := "The garden was quiet"

/-- info.json for the C2 counterexample: subject chemistry, standard mode. -/
def c2Info : Option InfoJson := some ⟨"chemistry", "", false, false⟩

/-- C2: counterexample.  With subject "chemistry", standard mode and no
references, the enhanced detector's own subject-mismatch indicator fires on
tC2 (the subject never occurs in the text), yet plagiarism_detected is false:
the standard-mode verdict only tests the percentage, the AI flag and emojis -
the mismatch indicator is not among its disjuncts. -/
theorem C2_counterexample :
    (EPD.detectEnhancedPlagiarism c2Info tC2 none).subject_mismatch = true ∧
      ¬ (EPD.detectEnhancedPlagiarism c2Info tC2 none).plagiarism_detected := by
  constructor
  · simp only [EPD.detectEnhancedPlagiarism]
    decide
  · have hconf : (AIPD.detectAiContent c2Info tC2).ai_confidence = 15 := by
      simp only [AIPD.detectAiContent]
      rw [AIPD.para_eq_zero_of_le_two tC2 (by decide),
          AIPD.sv_eq_zero_of_lt_three tC2 (by decide),
          AIPD.ld_eq_ratio tC2 4 4 (by decide) (by decide) (by decide) (by decide),
          AIPD.rp_eq_zero_of_count_zero tC2 (by decide) (by decide),
          AIPD.ss_eq_zero tC2 (by decide) (by decide) (by decide),
          show AIPD.patternCount tC2 = 0 from by decide,
          show AIPD.academicCount tC2 = 0 from by decide,
          show AIPD.detectSubjectContentMismatch c2Info tC2 = ⟨false, "chemistry", 0⟩
            from by decide]
      simp only [AIPD.aiScoreOf, AIPD.eBonus, AIPD.aBonus, AIPD.mBonus]
      rw [if_neg (by norm_num : ¬ 0 < 0), if_neg (by norm_num : ¬ 0 < 0),
          if_neg (Bool.false_ne_true)]
      rw [min_eq_right (by norm_num)]
      norm_num
    have hmm : ¬ (AIPD.detectAiContent c2Info tC2).is_ai_generated := by
      simp only [AIPD.detectAiContent] at hconf ⊢
      intro hAI
      rcases hAI with hscore | hm
      · rw [hconf] at hscore
        rw [show AIPD.strictOf c2Info = false from rfl,
            show AIPD.isAcademic tC2 = false from by decide] at hscore
        simp only [AIPD.thresholdOf, Bool.false_eq_true, if_false] at hscore
        norm_num at hscore
      · exact absurd hm (by decide)
    simp only [EPD.detectEnhancedPlagiarism]
    rw [show AIPD.strictOf c2Info = false from rfl]
    simp only [Bool.false_eq_true, if_false]
    rintro (hpct | hai | hemoji)
    · rw [hconf] at hpct
      norm_num at hpct
    · exact hmm hai
    · exact absurd hemoji (by decide)

/-- C2 (amended): the mismatch signal computed by detect_ai_content always
forces is_ai_generated (both modes), and the enhanced detector's own mismatch
indicator forces plagiarism_detected in strict mode only - in standard mode
the verdict ignores it (see the counterexample). -/
theorem C2_mismatch_dominance :
    (∀ (info : Option InfoJson) (t : String),
      (AIPD.detectAiContent info t).subject_mismatch = true →
      (AIPD.detectAiContent info t).is_ai_generated) ∧
    (∀ (i : InfoJson) (t : String) (refs : Option (List String)),
      i.strict_ai_detection = true →
      (EPD.detectEnhancedPlagiarism (some i) t refs).subject_mismatch = true →
      (EPD.detectEnhancedPlagiarism (some i) t refs).plagiarism_detected) := by
  constructor
  · intro info t h
    simp only [AIPD.detectAiContent] at h ⊢
    exact Or.inr h
  · intro i t refs hs h
    simp only [EPD.detectEnhancedPlagiarism] at h ⊢
    rw [show AIPD.strictOf (some i) = i.strict_ai_detection from rfl, hs]
    simp only [if_true]
    exact Or.inr (Or.inr (Or.inr (Or.inr h)))

/-- A text loaded with physics keywords, used to fire the mismatch signal. -/
def c2PhysicsText : String :=
  "physics quantum mechanics relativity particle wave energy force"

/-- C2 witness: both parts of the amended theorem at concrete inputs. -/
theorem C2_witness :
    (AIPD.detectAiContent (some ⟨"chemistry", "", false, false⟩)
        c2PhysicsText).is_ai_generated ∧
      (EPD.detectEnhancedPlagiarism (some ⟨"chemistry", "", true, false⟩)
        tC2 none).plagiarism_detected :=
  ⟨C2_mismatch_dominance.1 (some ⟨"chemistry", "", false, false⟩) c2PhysicsText
      (by simp only [AIPD.detectAiContent]; decide),
    C2_mismatch_dominance.2 ⟨"chemistry", "", true, false⟩ tC2 none rfl
      (by simp only [EPD.detectEnhancedPlagiarism]; decide)⟩

/- ===== Claim C9: determinism and ambient-state dependence ===== -/

/-- A text whose AI score lands between the strict and standard thresholds. -/
def c9Text : String :=
  "As an AI with my training data and my knowledge cutoff I don\x27t have beliefs and I don\x27t have opinions and I can provide information"

set_option maxRecDepth 4000 in
/-- The AI confidence of c9Text is 355/9, whatever the two info.json flags
are: 15 for the sentence-variety term, (100 - 1900/27) * 0.15 for lexical
diversity, plus the capped explicit-pattern bonus 20 for its six hits. -/
theorem c9_conf (b1 b2 : Bool) :
    (AIPD.detectAiContent (some ⟨"", "", b1, b2⟩) c9Text).ai_confidence = 355/9 := by
  simp only [AIPD.detectAiContent]
  rw [AIPD.para_eq_zero_of_le_two c9Text (by decide),
      AIPD.sv_eq_zero_of_lt_three c9Text (by decide),
      AIPD.ld_eq_ratio c9Text 19 27 (by decide) (by decide) (by decide) (by decide),
      AIPD.rp_eq_zero_of_count_zero c9Text (by decide) (by decide),
      AIPD.ss_eq_zero c9Text (by decide) (by decide) (by decide),
      show AIPD.patternCount c9Text = 6 from by decide,
      show AIPD.academicCount c9Text = 0 from by decide,
      show AIPD.detectSubjectContentMismatch (some ⟨"", "", b1, b2⟩) c9Text =
        ⟨false, "", 0⟩ from rfl]
  simp only [AIPD.aiScoreOf, AIPD.eBonus, AIPD.aBonus, AIPD.mBonus]
  rw [if_pos (by norm_num : 0 < 6), if_neg (by norm_num : ¬ 0 < 0),
      if_neg (Bool.false_ne_true)]
  rw [show ((6:ℕ):ℝ) * 5 = 30 by norm_num,
      min_eq_left (by norm_num : (20:ℝ) ≤ 30)]
  rw [min_eq_right (by norm_num)]
  norm_num

/-- C9: counterexample.  On the very same text with the same declared
subject, flipping the strict_ai_detection flag stored in data/info.json flips
is_ai_generated: the score 355/9 exceeds the strict threshold 35 but not the
standard threshold 65.  The verdict therefore depends on ambient state (the
info.json file on disk), not only on the analysed inputs. -/
theorem C9_counterexample :
    (AIPD.detectAiContent (some ⟨"", "", true, false⟩) c9Text).is_ai_generated ∧
      ¬ (AIPD.detectAiContent (some ⟨"", "", false, false⟩) c9Text).is_ai_generated := by
  constructor
  · have hc := c9_conf true false
    simp only [AIPD.detectAiContent] at hc ⊢
    left
    rw [hc, show AIPD.strictOf (some ⟨"", "", true, false⟩) = true from rfl,
        show AIPD.isAcademic c9Text = false from by decide]
    simp only [AIPD.thresholdOf, if_true, Bool.false_eq_true, if_false]
    norm_num
  · have hc := c9_conf false false
    simp only [AIPD.detectAiContent] at hc ⊢
    rintro (hscore | hm)
    · rw [hc, show AIPD.strictOf (some ⟨"", "", false, false⟩) = false from rfl,
          show AIPD.isAcademic c9Text = false from by decide] at hscore
      simp only [AIPD.thresholdOf, Bool.false_eq_true, if_false] at hscore
      norm_num at hscore
    · exact absurd hm (by decide)

/-- C9 (amended): the scoring itself is a pure function of the text and the
ambient info.json contents - in particular the AI confidence does not depend
on the two boolean flags - but the full pipeline is not independent of
ambient state: the detection verdict reads strict_ai_detection from
info.json (see the counterexample) and the sandbox result embeds the wall
clock passed to it as its timestamp. -/
theorem C9_determinism :
    (∀ (sn fn : String) (b1 b2 b1h b2h : Bool) (t : String),
      (AIPD.detectAiContent (some ⟨sn, fn, b1, b2⟩) t).ai_confidence =
        (AIPD.detectAiContent (some ⟨sn, fn, b1h, b2h⟩) t).ai_confidence) ∧
    (∀ (info : Sandbox.Info) (ocr scraped : String) (gw : List String)
        (phi : ℚ) (clock : String),
      (Sandbox.runSandboxAnalysis info ocr scraped gw phi clock).timestamp = clock) := by
  constructor
  · intro sn fn b1 b2 b1h b2h t
    simp only [AIPD.detectAiContent, AIPD.detectSubjectContentMismatch]
  · intro info ocr scraped gw phi clock
    rfl

/- ===== Claim C7: monotonicity in the explicit-pattern hit count ===== -/

/-- C7: counterexample at the formula level, with everything but the hit
count held fixed: feature scores (100, 0, 0, 100, 0), no academic hits, no
mismatch, top-features score top2avg = 100, both similarities 100, standard
mode and references present.  One hit gives confidence 65 (not detected, so
the standard weighting applies 0.3/0.3/0.2/0.2, percentage 89.5); two hits
give confidence 70 (detected, weighting 0.4/0.3/0.15/0.15, percentage 88):
increasing the hit count strictly DECREASES the plagiarism percentage. -/
theorem C7_counterexample :
    min 100 (AIPD.aiScoreOf 100 0 0 100 0 1 0 false 0) <
        min 100 (AIPD.aiScoreOf 100 0 0 100 0 2 0 false 0) ∧
      EPD.standardPct
          (min 100 (AIPD.aiScoreOf 100 0 0 100 0 2 0 false 0) >
              AIPD.thresholdOf false false ∨ false = true)
          (min 100 (AIPD.aiScoreOf 100 0 0 100 0 2 0 false 0))
          (EPD.top2avg 100 0 0 100 0) 100 100 <
        EPD.standardPct
          (min 100 (AIPD.aiScoreOf 100 0 0 100 0 1 0 false 0) >
              AIPD.thresholdOf false false ∨ false = true)
          (min 100 (AIPD.aiScoreOf 100 0 0 100 0 1 0 false 0))
          (EPD.top2avg 100 0 0 100 0) 100 100 := by
  have h1 : min (100:ℝ) (AIPD.aiScoreOf 100 0 0 100 0 1 0 false 0) = 65 := by
    simp only [AIPD.aiScoreOf, AIPD.eBonus, AIPD.aBonus, AIPD.mBonus]
    rw [if_pos (by norm_num : 0 < 1), if_neg (by norm_num : ¬ 0 < 0),
        if_neg (Bool.false_ne_true)]
    rw [show ((1:ℕ):ℝ) * 5 = 5 by norm_num,
        min_eq_right (by norm_num : (5:ℝ) ≤ 20)]
    rw [min_eq_right (by norm_num)]
    norm_num
  have h2 : min (100:ℝ) (AIPD.aiScoreOf 100 0 0 100 0 2 0 false 0) = 70 := by
    simp only [AIPD.aiScoreOf, AIPD.eBonus, AIPD.aBonus, AIPD.mBonus]
    rw [if_pos (by norm_num : 0 < 2), if_neg (by norm_num : ¬ 0 < 0),
        if_neg (Bool.false_ne_true)]
    rw [show ((2:ℕ):ℝ) * 5 = 10 by norm_num,
        min_eq_right (by norm_num : (10:ℝ) ≤ 20)]
    rw [min_eq_right (by norm_num)]
    norm_num
  have htop : EPD.top2avg 100 0 0 100 0 = 100 := by
    simp only [EPD.top2avg]
    norm_num [max_def]
  have hthr : AIPD.thresholdOf false false = 65 := by
    simp only [AIPD.thresholdOf, Bool.false_eq_true, if_false]
  refine ⟨by rw [h1, h2]; norm_num, ?_⟩
  rw [h1, h2, htop, hthr]
  simp only [EPD.standardPct]
  rw [if_pos (by norm_num : (70:ℝ) > 65 ∨ false = true),
      if_neg (by
        rintro ((h : (65:ℝ) > 65) | h)
        · exact absurd h (by norm_num)
        · exact absurd h (by decide))]
  norm_num

/-- C7 (amended): the capped AI score is monotone non-decreasing in the
explicit-pattern hit count with all other inputs of the score fixed; and
each fixed branch of the standard percentage weighting is monotone
non-decreasing in the AI confidence.  The full pipeline percentage is not
monotone, because a rising hit count can flip the detection branch of the
weighting (see the counterexample). -/
theorem C7_monotone :
    (∀ (para sv ld rp ss : ℝ) (ac : ℕ) (mm : Bool) (mconf : ℕ) (pc pcx : ℕ),
      pc ≤ pcx →
      min 100 (AIPD.aiScoreOf para sv ld rp ss pc ac mm mconf) ≤
        min 100 (AIPD.aiScoreOf para sv ld rp ss pcx ac mm mconf)) ∧
    (∀ (d : Prop) (conf confx top ng st : ℝ), conf ≤ confx →
      EPD.standardPct d conf top ng st ≤ EPD.standardPct d confx top ng st) := by
  constructor
  · intro para sv ld rp ss ac mm mconf pc pcx hle
    apply min_le_min (le_refl _)
    simp only [AIPD.aiScoreOf]
    have hbonus : AIPD.eBonus pc ≤ AIPD.eBonus pcx := by
      simp only [AIPD.eBonus]
      by_cases h0 : 0 < pc
      · rw [if_pos h0, if_pos (by omega)]
        apply min_le_min (le_refl _)
        have : (pc:ℝ) ≤ (pcx:ℝ) := by exact_mod_cast hle
        nlinarith
      · rw [if_neg h0]
        by_cases h1 : 0 < pcx
        · rw [if_pos h1]
          refine le_min (by norm_num) (by positivity)
        · rw [if_neg h1]
    linarith
  · intro d conf confx top ng st hle
    simp only [EPD.standardPct]
    by_cases hd : d
    · rw [if_pos hd, if_pos hd]
      linarith
    · rw [if_neg hd, if_neg hd]
      linarith

/-- C7 witness: both monotonicity parts at concrete inputs. -/
theorem C7_witness :
    min 100 (AIPD.aiScoreOf 0 0 0 0 0 1 0 false 0) ≤
        min 100 (AIPD.aiScoreOf 0 0 0 0 0 3 0 false 0) ∧
      EPD.standardPct True 10 20 30 40 ≤ EPD.standardPct True 50 20 30 40 :=
  ⟨C7_monotone.1 0 0 0 0 0 0 false 0 1 3 (by norm_num),
    C7_monotone.2 True 10 50 20 30 40 (by norm_num)⟩

/- ===== Claim C1: range invariants of the remaining emitted scores ===== -/

namespace AIPD

theorem para_range (t : String) :
    0 ≤ analyzeParagraphConsistency t ∧ analyzeParagraphConsistency t ≤ 100 := by
  simp only [analyzeParagraphConsistency]
  split_ifs <;> first | exact clampMem _ | norm_num

theorem sv_range (t : String) :
    0 ≤ analyzeSentenceVariety t ∧ analyzeSentenceVariety t ≤ 100 := by
  simp only [analyzeSentenceVariety]
  split_ifs <;> first | exact clampMem _ | norm_num

theorem ld_range (t : String) :
    0 ≤ analyzeLexicalDiversity t ∧ analyzeLexicalDiversity t ≤ 100 := by
  simp only [analyzeLexicalDiversity]
  split_ifs
  · norm_num
  · exact clampMem _

theorem rp_range (t : String) :
    0 ≤ analyzeRepetitivePatterns t ∧ analyzeRepetitivePatterns t ≤ 100 := by
  simp only [analyzeRepetitivePatterns]
  split_ifs
  · norm_num
  · exact clampMem _

theorem ss_range (t : String) :
    0 ≤ analyzeStructuralPatterns t ∧ analyzeStructuralPatterns t ≤ 100 := by
  simp only [analyzeStructuralPatterns]
  split_ifs <;> norm_num

theorem eBonus_nonneg (pc : ℕ) : 0 ≤ eBonus pc := by
  simp only [eBonus]
  split_ifs
  · exact le_min (by norm_num) (by positivity)
  · exact le_refl 0

theorem aBonus_nonneg (ac : ℕ) : 0 ≤ aBonus ac := by
  simp only [aBonus]
  split_ifs
  · exact le_min (by norm_num) (by positivity)
  · exact le_refl 0

theorem mBonus_nonneg (mm : Bool) (conf : ℕ) : 0 ≤ mBonus mm conf := by
  simp only [mBonus]
  split_ifs
  · exact le_min (by norm_num) (by positivity)
  · exact le_refl 0

theorem conf_range (info : Option InfoJson) (t : String) :
    0 ≤ (detectAiContent info t).ai_confidence ∧
      (detectAiContent info t).ai_confidence ≤ 100 := by
  simp only [detectAiContent]
  constructor
  · refine le_min (by norm_num) ?_
    simp only [aiScoreOf]
    have hp := para_range t
    have hsv := sv_range t
    have hld := ld_range t
    have hrp := rp_range t
    have hss := ss_range t
    have he := eBonus_nonneg (patternCount t)
    have ha := aBonus_nonneg (academicCount t)
    have hm := mBonus_nonneg (detectSubjectContentMismatch info t).mismatch_detected
      (detectSubjectContentMismatch info t).confidence
    nlinarith [hp.1, hp.2, hsv.1, hsv.2, hld.1, hld.2, hrp.1, hrp.2, hss.1, hss.2]
  · exact min_le_left _ _

end AIPD

namespace EPD

theorem nodup_subset_length_le {α : Type} [DecidableEq α] {l m : List α}
    (hn : l.Nodup) (hs : ∀ x ∈ l, x ∈ m) : l.length ≤ m.length := by
  calc l.length = l.toFinset.card := (List.toFinset_card_of_nodup hn).symm
    _ ≤ m.toFinset.card := Finset.card_le_card
        (fun x hx => List.mem_toFinset.mpr (hs x (List.mem_toFinset.mp hx)))
    _ ≤ m.length := m.toFinset_card_le

theorem jaccard_mem (n1 n2 : List (List Char)) (h1 : n1 ≠ []) (h2 : n2 ≠ []) :
    0 ≤ (((n1.dedup.filter (fun g => n2.dedup.contains g)).length : ℝ) /
        ((n1.dedup.length + n2.dedup.length -
          (n1.dedup.filter (fun g => n2.dedup.contains g)).length : ℕ) : ℝ)) * 100 ∧
      (((n1.dedup.filter (fun g => n2.dedup.contains g)).length : ℝ) /
        ((n1.dedup.length + n2.dedup.length -
          (n1.dedup.filter (fun g => n2.dedup.contains g)).length : ℕ) : ℝ)) * 100 ≤ 100 := by
  have hc1 : (n1.dedup.filter (fun g => n2.dedup.contains g)).length ≤ n1.dedup.length :=
    List.length_filter_le _ _
  have hc2 : (n1.dedup.filter (fun g => n2.dedup.contains g)).length ≤ n2.dedup.length := by
    refine nodup_subset_length_le ((List.nodup_dedup n1).filter _) (fun x hx => ?_)
    have hmem := (List.mem_filter.mp hx).2
    simpa using hmem
  obtain ⟨x2, hx2⟩ := List.exists_mem_of_ne_nil _ h2
  have hs2 : 0 < n2.dedup.length :=
    List.length_pos.mpr (List.ne_nil_of_mem (List.mem_dedup.mpr hx2))
  have hdn : (n1.dedup.filter (fun g => n2.dedup.contains g)).length ≤
      n1.dedup.length + n2.dedup.length -
        (n1.dedup.filter (fun g => n2.dedup.contains g)).length := by omega
  have hdnpos : 0 < n1.dedup.length + n2.dedup.length -
      (n1.dedup.filter (fun g => n2.dedup.contains g)).length := by omega
  have hdnR : (0:ℝ) < ((n1.dedup.length + n2.dedup.length -
      (n1.dedup.filter (fun g => n2.dedup.contains g)).length : ℕ) : ℝ) := by
    exact_mod_cast hdnpos
  constructor
  · positivity
  · have hle : (((n1.dedup.filter (fun g => n2.dedup.contains g)).length : ℕ) : ℝ) ≤
        ((n1.dedup.length + n2.dedup.length -
          (n1.dedup.filter (fun g => n2.dedup.contains g)).length : ℕ) : ℝ) := by
      exact_mod_cast hdn
    have hdiv : (((n1.dedup.filter (fun g => n2.dedup.contains g)).length : ℕ) : ℝ) /
        ((n1.dedup.length + n2.dedup.length -
          (n1.dedup.filter (fun g => n2.dedup.contains g)).length : ℕ) : ℝ) ≤ 1 := by
      rw [div_le_one hdnR]
      exact hle
    nlinarith

theorem ngramE_range (t1 t2 : String) :
    0 ≤ calcNgramSimilarityE t1 t2 ∧ calcNgramSimilarityE t1 t2 ≤ 100 := by
  simp only [calcNgramSimilarityE]
  split_ifs with h
  · norm_num
  · push_neg at h
    exact jaccard_mem _ _ h.1 h.2

theorem statE_range (t1 t2 : String) :
    0 ≤ analyzeStatisticalSimilarityE t1 t2 ∧ analyzeStatisticalSimilarityE t1 t2 ≤ 100 := by
  simp only [analyzeStatisticalSimilarityE]
  split_ifs
  · norm_num
  · exact AIPD.clampMem _
  · exact AIPD.clampMem _

theorem foldl_max_mem (l : List ℝ) (init : ℝ) (h0 : 0 ≤ init) (h1 : init ≤ 100)
    (hl : ∀ x ∈ l, 0 ≤ x ∧ x ≤ 100) :
    0 ≤ l.foldl max init ∧ l.foldl max init ≤ 100 := by
  induction l generalizing init with
  | nil => exact ⟨h0, h1⟩
  | cons a tl ih =>
    simp only [List.foldl_cons]
    exact ih (max init a) (le_trans h0 (le_max_left _ _))
      (max_le h1 (hl a (List.mem_cons_self a tl)).2)
      (fun x hx => hl x (List.mem_cons_of_mem a hx))

theorem maxNgramOf_range (t : String) (refsL : List String) :
    0 ≤ maxNgramOf t refsL ∧ maxNgramOf t refsL ≤ 100 := by
  simp only [maxNgramOf]
  refine foldl_max_mem _ 0 (le_refl 0) (by norm_num) (fun x hx => ?_)
  obtain ⟨r, _, rfl⟩ := List.mem_map.mp hx
  exact ngramE_range t r

theorem maxStatOf_range (t : String) (refsL : List String) :
    0 ≤ maxStatOf t refsL ∧ maxStatOf t refsL ≤ 100 := by
  simp only [maxStatOf]
  refine foldl_max_mem _ 0 (le_refl 0) (by norm_num) (fun x hx => ?_)
  obtain ⟨r, _, rfl⟩ := List.mem_map.mp hx
  exact statE_range t r

theorem pct_range (info : Option InfoJson) (t : String) (refs : Option (List String)) :
    0 ≤ (detectEnhancedPlagiarism info t refs).plagiarism_percentage ∧
      (detectEnhancedPlagiarism info t refs).plagiarism_percentage ≤ 100 := by
  have hconf := AIPD.conf_range info t
  simp only [detectEnhancedPlagiarism]
  split_ifs <;> first | exact AIPD.clampMem _ | exact hconf

theorem simfields_range (info : Option InfoJson) (t : String) (refs : Option (List String)) :
    (0 ≤ (detectEnhancedPlagiarism info t refs).ngram_similarity ∧
      (detectEnhancedPlagiarism info t refs).ngram_similarity ≤ 100) ∧
    (0 ≤ (detectEnhancedPlagiarism info t refs).statistical_similarity ∧
      (detectEnhancedPlagiarism info t refs).statistical_similarity ≤ 100) := by
  simp only [detectEnhancedPlagiarism]
  constructor
  · split_ifs
    · exact maxNgramOf_range t _
    · norm_num
  · split_ifs
    · exact maxStatOf_range t _
    · norm_num

end EPD

/-- C1: every score the pipeline emits stays in [0, 100]: the five feature
scores and the AI confidence of detect_ai_content; all eleven fields of
calculate_advanced_plagiarism; the plagiarism percentage and the three
similarity fields of detect_enhanced_plagiarism; and the relevance scores
(keyword, fallback, and final combiner, the latter for in-range inputs; the
keyword scorer needs a non-empty keyword list, which the caller guarantees -
Python would divide by zero otherwise). -/
theorem C1_scores_in_range :
    (∀ (info : Option InfoJson) (t : String),
      (0 ≤ (AIPD.detectAiContent info t).paragraph_consistency ∧
        (AIPD.detectAiContent info t).paragraph_consistency ≤ 100) ∧
      (0 ≤ (AIPD.detectAiContent info t).sentence_variety ∧
        (AIPD.detectAiContent info t).sentence_variety ≤ 100) ∧
      (0 ≤ (AIPD.detectAiContent info t).lexical_diversity ∧
        (AIPD.detectAiContent info t).lexical_diversity ≤ 100) ∧
      (0 ≤ (AIPD.detectAiContent info t).repetitive_patterns ∧
        (AIPD.detectAiContent info t).repetitive_patterns ≤ 100) ∧
      (0 ≤ (AIPD.detectAiContent info t).structural_patterns ∧
        (AIPD.detectAiContent info t).structural_patterns ≤ 100) ∧
      (0 ≤ (AIPD.detectAiContent info t).ai_confidence ∧
        (AIPD.detectAiContent info t).ai_confidence ≤ 100)) ∧
    (∀ (t ref : String) (kws : List String),
      let r := APA.calculateAdvancedPlagiarism t ref kws
      (0 ≤ r.plagiarism_percentage ∧ r.plagiarism_percentage ≤ 100) ∧
      (0 ≤ r.ai_confidence ∧ r.ai_confidence ≤ 100) ∧
      (0 ≤ r.paragraph_consistency ∧ r.paragraph_consistency ≤ 100) ∧
      (0 ≤ r.sentence_variety ∧ r.sentence_variety ≤ 100) ∧
      (0 ≤ r.lexical_diversity ∧ r.lexical_diversity ≤ 100) ∧
      (0 ≤ r.repetitive_patterns ∧ r.repetitive_patterns ≤ 100) ∧
      (0 ≤ r.structural_patterns ∧ r.structural_patterns ≤ 100) ∧
      (0 ≤ r.semantic_similarity ∧ r.semantic_similarity ≤ 100) ∧
      (0 ≤ r.statistical_similarity ∧ r.statistical_similarity ≤ 100) ∧
      (0 ≤ r.ngram_similarity ∧ r.ngram_similarity ≤ 100) ∧
      (0 ≤ r.top_features_score ∧ r.top_features_score ≤ 100)) ∧
    (∀ (info : Option InfoJson) (t : String) (refs : Option (List String)),
      (0 ≤ (EPD.detectEnhancedPlagiarism info t refs).plagiarism_percentage ∧
        (EPD.detectEnhancedPlagiarism info t refs).plagiarism_percentage ≤ 100) ∧
      (0 ≤ (EPD.detectEnhancedPlagiarism info t refs).ngram_similarity ∧
        (EPD.detectEnhancedPlagiarism info t refs).ngram_similarity ≤ 100) ∧
      (0 ≤ (EPD.detectEnhancedPlagiarism info t refs).statistical_similarity ∧
        (EPD.detectEnhancedPlagiarism info t refs).statistical_similarity ≤ 100) ∧
      (0 ≤ (EPD.detectEnhancedPlagiarism info t refs).semantic_similarity ∧
        (EPD.detectEnhancedPlagiarism info t refs).semantic_similarity ≤ 100)) ∧
    (∀ (t : String) (kws : List String), kws ≠ [] →
      0 ≤ CR.checkGroqWordRelevance t kws ∧ CR.checkGroqWordRelevance t kws ≤ 100) ∧
    (∀ (t s : String),
      0 ≤ CR.calculateEnhancedFallbackRelevance t s ∧
        CR.calculateEnhancedFallbackRelevance t s ≤ 100) ∧
    (∀ (k p : ℚ), 0 ≤ k → k ≤ 100 → 0 ≤ p → p ≤ 100 →
      0 ≤ CR.calculateFinalRelevance k p ∧ CR.calculateFinalRelevance k p ≤ 100) := by
  refine ⟨?_, ?_, ?_, ?_, ?_, ?_⟩
  · intro info t
    refine ⟨?_, ?_, ?_, ?_, ?_, ?_⟩
    · simpa only [AIPD.detectAiContent] using AIPD.para_range t
    · simpa only [AIPD.detectAiContent] using AIPD.sv_range t
    · simpa only [AIPD.detectAiContent] using AIPD.ld_range t
    · simpa only [AIPD.detectAiContent] using AIPD.rp_range t
    · simpa only [AIPD.detectAiContent] using AIPD.ss_range t
    · exact AIPD.conf_range info t
  · exact fun t ref kws => APA.result_range t ref kws
  · intro info t refs
    refine ⟨EPD.pct_range info t refs, (EPD.simfields_range info t refs).1,
      (EPD.simfields_range info t refs).2, ?_⟩
    simp only [EPD.detectEnhancedPlagiarism]
    norm_num
  · exact fun t kws h => CR.checkGroqWordRelevance_range t kws h
  · exact fun t s => CR.calculateEnhancedFallbackRelevance_range t s
  · intro k p h1 h2 h3 h4
    obtain ⟨ha, hb⟩ := CR.calculateFinalRelevance_range k p h1 h2 h3 h4
    exact ⟨by linarith, hb⟩

/-- C1 witness: the hypothesis-bearing conjuncts instantiated - a non-empty
keyword list for the keyword scorer and in-range inputs for the combiner. -/
theorem C1_witness :
    (0 ≤ CR.checkGroqWordRelevance "physics waves" ["physics"] ∧
      CR.checkGroqWordRelevance "physics waves" ["physics"] ≤ 100) ∧
    (0 ≤ CR.calculateFinalRelevance 50 80 ∧ CR.calculateFinalRelevance 50 80 ≤ 100) :=
  ⟨C1_scores_in_range.2.2.2.1 "physics waves" ["physics"] (by decide),
    C1_scores_in_range.2.2.2.2.2 50 80 (by norm_num) (by norm_num)
      (by norm_num) (by norm_num)⟩
